import Mathlib

/-! Configuration validation and identity providers of oauth2_proxy.

A shallow embedding of `options.go` (`Options`, `NewOptions`, `parseUrl`, `Options.Validate`),
of `providers.go` (the provider constructors, `NewProvider` and the two `GetEmailAddress`
methods) and of `providers/myusa.go`.

* Go pointers (`*url.URL`, `*regexp.Regexp`) are `Option` values, `nil` being `none`.
* A nil-pointer dereference or an index out of range is the `Outcome.panic` result.
* `Validate` is a method on `*Options` that writes into its receiver; the embedding passes the
  receiver in and returns the receiver as left by the call, together with the local slice
  `msgs` and the returned `error`. The provider constructors write into `opts` too and return
  the configuration after the call along with the provider.
* The library functions the code calls (`url.Parse`, `regexp.Compile`, the `%q` verb of `fmt`,
  `base64.URLEncoding.DecodeString`, `simplejson.NewJson`) are taken as parameters, bundled in
  `Lib` and `Codec`; every general theorem holds for every such library.
-/

namespace Oauth2Proxy

/-! ## Data model -/

/-- The fields of Go's `url.URL`; `User` is the rendered user-info part when present. -/
structure URL where
  Scheme : String := ""
  Opaque : String := ""
  User : Option String := none
  Host : String := ""
  Path : String := ""
  RawQuery : String := ""
  Fragment : String := ""
deriving DecidableEq, Repr

/-- A compiled `regexp.Regexp`, identified by the expression it was compiled from. -/
structure Regexp where
  expr : String
deriving DecidableEq, Repr

/-- The struct `Options` of `options.go`: the user-supplied settings followed by the three
internal values that are set by validation. `CookieExpire` is a `time.Duration` in nanoseconds.
The last four fields are the ones `providers.go` reads and writes (`opts.Provider`,
`opts.loginUrl`, `opts.redeemUrl`, `opts.profileUrl`) and the declaration in `options.go`
does not list: the provider discriminator and the parsed provider URLs. -/
structure Options where
  HttpAddress : String := ""
  RedirectUrl : String := ""
  ClientID : String := ""
  ClientSecret : String := ""
  PassBasicAuth : Bool := false
  HtpasswdFile : String := ""
  DisplayHtpasswdForm : Bool := false
  CookieSecret : String := ""
  CookieDomain : String := ""
  CookieExpire : Int := 0
  CookieHttpsOnly : Bool := false
  CookieHttpOnly : Bool := false
  AuthenticatedEmailsFile : String := ""
  GoogleAppsDomains : List String := []
  Upstreams : List String := []
  SkipAuthRegex : List String := []
  LoginUrl : String := ""
  RedeemUrl : String := ""
  ProfileUrl : String := ""
  Scope : String := ""
  redirectUrl : Option URL := none
  proxyUrls : List (Option URL) := []
  CompiledRegex : List (Option Regexp) := []
  Provider : String := ""
  loginUrl : Option URL := none
  redeemUrl : Option URL := none
  profileUrl : Option URL := none
deriving DecidableEq, Repr

/-- One hour as a `time.Duration`. -/
def hour : Int := 3600 * 1000000000

/-- The constructor `NewOptions` of `options.go`. -/
def NewOptions : Options :=
  { HttpAddress := "127.0.0.1:4180"
    DisplayHtpasswdForm := true
    CookieHttpsOnly := true
    CookieHttpOnly := true
    PassBasicAuth := true
    CookieExpire := 168 * hour
    LoginUrl := "https://accounts.google.com/o/oauth2/auth"
    RedeemUrl := "https://accounts.google.com/o/oauth2/token"
    Scope := "profile email" }

/-- The standard-library functions `Validate` calls. `urlParse` is `url.Parse` and
`regexpCompile` is `regexp.Compile`: each returns either a non-nil value and a nil error, or a
nil value and an error, whose `Error()` text is the `String` carried here. `quote` is what the
verb `%q` of `fmt` prints for a string operand. -/
structure Lib where
  urlParse : String → Except String URL
  regexpCompile : String → Except String Regexp
  quote : String → String

/-- The result of running code that may fault: a value, or a run-time panic. -/
inductive Outcome (α : Type) where
  | ok : α → Outcome α
  | panic : Outcome α
deriving DecidableEq, Repr

/-- What a completed call of `Validate` leaves behind: the receiver after the call, the local
slice `msgs` at the final test, and the returned `error` (its text, or `none` for nil). -/
structure ValidateResult where
  opts : Options
  msgs : List String
  err : Option String
deriving DecidableEq, Repr

/-! ## The code -/

/-- Go's `strings.Join`. -/
def stringsJoin : List String → String → String
  | [], _ => ""
  | [a], _ => a
  | a :: b :: rest, sep => a ++ sep ++ stringsJoin (b :: rest) sep

/-- The function `parseUrl` of `options.go`. -/
def parseUrl (lib : Lib) (to_parse urltype : String) (msgs : List String) :
    Option URL × List String :=
  match lib.urlParse to_parse with
  | .error err =>
    (none, msgs ++ ["error parsing " ++ urltype ++ "-url=" ++ lib.quote to_parse ++ " " ++ err])
  | .ok parsed => (some parsed, msgs)

/-- The body of the loop over `o.Upstreams` in `Validate` (lines 81-90). When `url.Parse` fails
`upstreamUrl` is nil: the message is appended (`%q` of the nil pointer prints `<nil>`), and the
next statement reads `upstreamUrl.Path` through the nil pointer, which panics. -/
def upstreamBody (lib : Lib) (o : Options) (msgs : List String) (u : String) :
    Outcome (Options × List String) :=
  match lib.urlParse u with
  | .error err =>
    let _msgs := msgs ++ ["error parsing upstream=<nil> " ++ err]
    .panic
  | .ok upstreamUrl =>
    let upstreamUrl := if upstreamUrl.Path = "" then { upstreamUrl with Path := "/" } else upstreamUrl
    .ok ({ o with proxyUrls := o.proxyUrls ++ [some upstreamUrl] }, msgs)

/-- The loop `for _, u := range o.Upstreams` of `Validate`. -/
def upstreamLoop (lib : Lib) : List String → Options → List String →
    Outcome (Options × List String)
  | [], o, msgs => .ok (o, msgs)
  | u :: rest, o, msgs =>
    match upstreamBody lib o msgs u with
    | .panic => .panic
    | .ok (o, msgs) => upstreamLoop lib rest o msgs

/-- The body of the loop over `o.SkipAuthRegex` in `Validate` (lines 94-99): the result of
`regexp.Compile` is appended whether or not it is nil. -/
def regexBody (lib : Lib) (o : Options) (msgs : List String) (u : String) :
    Options × List String :=
  match lib.regexpCompile u with
  | .error err =>
    ({ o with CompiledRegex := o.CompiledRegex ++ [none] },
      msgs ++ ["error compiling regex=" ++ lib.quote u ++ " " ++ err])
  | .ok compiled => ({ o with CompiledRegex := o.CompiledRegex ++ [some compiled] }, msgs)

/-- The loop `for _, u := range o.SkipAuthRegex` of `Validate`. -/
def regexLoop (lib : Lib) : List String → Options → List String → Options × List String
  | [], o, msgs => (o, msgs)
  | u :: rest, o, msgs =>
    let (o, msgs) := regexBody lib o msgs u
    regexLoop lib rest o msgs

/-- The method `Options.Validate` of `options.go`. -/
def Validate (lib : Lib) (o : Options) : Outcome ValidateResult :=
  let msgs : List String := []
  let msgs := if o.Upstreams.length < 1 then msgs ++ ["missing setting: upstream"] else msgs
  let msgs := if o.CookieSecret = "" then msgs ++ ["missing setting: cookie-secret"] else msgs
  let msgs := if o.ClientID = "" then msgs ++ ["missing setting: client-id"] else msgs
  let msgs := if o.ClientSecret = "" then msgs ++ ["missing setting: client-secret"] else msgs
  let (redirectUrl, msgs) := parseUrl lib o.RedirectUrl "redirect" msgs
  let o := { o with redirectUrl := redirectUrl }
  match upstreamLoop lib o.Upstreams o msgs with
  | .panic => .panic
  | .ok (o, msgs) =>
    let (o, msgs) := regexLoop lib o.SkipAuthRegex o msgs
    if msgs.length ≠ 0 then
      .ok ⟨o, msgs, some ("Invalid configuration:\n  " ++ stringsJoin msgs "\n  ")⟩
    else
      .ok ⟨o, msgs, none⟩

/-! ## A concrete library instance

`exampleLib` is a small executable `Lib` on which `Validate` can be evaluated at concrete
configurations. Its parser splits `scheme://host/path` the way `net/url` does and rejects a string
that starts with a colon (`missing protocol scheme`); its regex compiler rejects unbalanced
parentheses; its `quote` wraps the text in double quotes, escaping `"` and `\`. -/

/-- The scan of `net/url`'s `getscheme`: `acc` holds the characters read so far, reversed. -/
def getscheme : List Char → List Char → Except String (List Char × List Char)
  | [], acc => .ok ([], acc.reverse)
  | c :: rest, acc =>
    if c.isAlpha then getscheme rest (c :: acc)
    else if c.isDigit || c == '+' || c == '-' || c == '.' then
      if acc.isEmpty then .ok ([], c :: rest) else getscheme rest (c :: acc)
    else if c == ':' then
      if acc.isEmpty then .error "missing protocol scheme" else .ok (acc.reverse, rest)
    else .ok ([], acc.reverse ++ c :: rest)

/-- Splits a list at the first occurrence of `sep`, which stays at the head of the second part. -/
def splitAtChar (sep : Char) : List Char → List Char × List Char
  | [] => ([], [])
  | c :: rest =>
    if c == sep then ([], c :: rest)
    else let (a, b) := splitAtChar sep rest; (c :: a, b)

/-- A URL parser for strings of the shape `scheme://host/path`, `/path` or `scheme:opaque`. -/
def exampleUrlParse (rawurl : String) : Except String URL :=
  match getscheme rawurl.data [] with
  | .error e => .error ("parse " ++ rawurl ++ ": " ++ e)
  | .ok (scheme, rest) =>
    match rest with
    | '/' :: '/' :: r =>
      let (host, path) := splitAtChar '/' r
      .ok { Scheme := String.mk scheme, Host := String.mk host, Path := String.mk path }
    | '/' :: r => .ok { Scheme := String.mk scheme, Path := String.mk ('/' :: r) }
    | r =>
      if scheme.isEmpty then .ok { Path := String.mk r }
      else .ok { Scheme := String.mk scheme, Opaque := String.mk r }

/-- Depth of open parentheses after reading the characters, or `none` on an unmatched `)`. -/
def parenDepth : List Char → Nat → Option Nat
  | [], d => some d
  | c :: rest, d =>
    if c == '(' then parenDepth rest (d + 1)
    else if c == ')' then (match d with | 0 => none | d + 1 => parenDepth rest d)
    else parenDepth rest d

/-- A regex compiler that only checks that parentheses are balanced. -/
def exampleRegexpCompile (expr : String) : Except String Regexp :=
  match parenDepth expr.data 0 with
  | some 0 => .ok ⟨expr⟩
  | some _ => .error ("error parsing regexp: missing closing ): `" ++ expr ++ "`")
  | none => .error ("error parsing regexp: unexpected ): `" ++ expr ++ "`")

/-- Escapes `"` and `\` with a backslash. -/
def escapeChars : List Char → List Char
  | [] => []
  | c :: rest =>
    if c == '"' || c == '\\' then '\\' :: c :: escapeChars rest else c :: escapeChars rest

/-- Double-quotes a string. -/
def exampleQuote (s : String) : String :=
  "\"" ++ String.mk (escapeChars s.data) ++ "\""

/-- The concrete library instance. -/
def exampleLib : Lib :=
  { urlParse := exampleUrlParse
    regexpCompile := exampleRegexpCompile
    quote := exampleQuote }

/-! ## Functions describing the result of `Validate` -/

/-- The entry the upstream loop appends for `u`: the parsed URL with an empty path replaced by
`/`; `none` when `u` does not parse (no entry is ever appended then). -/
def upstreamEntry (lib : Lib) (u : String) : Option URL :=
  match lib.urlParse u with
  | .error _ => none
  | .ok url => some (if url.Path = "" then { url with Path := "/" } else url)

/-- The entry the regex loop appends for `u`: the compiled matcher, or nil. -/
def regexEntry (lib : Lib) (u : String) : Option Regexp :=
  match lib.regexpCompile u with
  | .error _ => none
  | .ok compiled => some compiled

/-- The value `parseUrl` returns for the redirect URL. -/
def redirectEntry (lib : Lib) (s : String) : Option URL :=
  match lib.urlParse s with
  | .error _ => none
  | .ok parsed => some parsed

/-- The messages of the four presence checks, in the order of the code. -/
def missingMsgs (o : Options) : List String :=
  (if o.Upstreams.length < 1 then ["missing setting: upstream"] else []) ++
  (if o.CookieSecret = "" then ["missing setting: cookie-secret"] else []) ++
  (if o.ClientID = "" then ["missing setting: client-id"] else []) ++
  (if o.ClientSecret = "" then ["missing setting: client-secret"] else [])

/-- The message `parseUrl` appends for a redirect URL `s` that fails to parse with `err`. -/
def redirectMsg (lib : Lib) (s err : String) : String :=
  "error parsing " ++ "redirect" ++ "-url=" ++ lib.quote s ++ " " ++ err

/-- The messages contributed by the redirect URL: one if it fails to parse, none otherwise. -/
def redirectMsgs (lib : Lib) (s : String) : List String :=
  match lib.urlParse s with
  | .error err => [redirectMsg lib s err]
  | .ok _ => []

/-- The message the regex loop appends for a pattern `u` that fails to compile with `err`. -/
def regexMsg (lib : Lib) (u err : String) : String :=
  "error compiling regex=" ++ lib.quote u ++ " " ++ err

/-- The messages contributed by the skip-auth patterns, in list order. -/
def regexMsgs (lib : Lib) : List String → List String
  | [] => []
  | u :: rest =>
    match lib.regexpCompile u with
    | .error err => regexMsg lib u err :: regexMsgs lib rest
    | .ok _ => regexMsgs lib rest

/-- Whether `url.Parse` rejects the string. -/
def failsToParse (lib : Lib) (s : String) : Bool :=
  match lib.urlParse s with
  | .error _ => true
  | .ok _ => false

/-- Whether `regexp.Compile` rejects the pattern. -/
def failsToCompile (lib : Lib) (s : String) : Bool :=
  match lib.regexpCompile s with
  | .error _ => true
  | .ok _ => false

/-- The returned `error` for a final message list: nil when empty, else the joined report. -/
def reportOf (msgs : List String) : Option String :=
  if msgs.length ≠ 0 then some ("Invalid configuration:\n  " ++ stringsJoin msgs "\n  ") else none

/-- A configuration on which validation has not run: the three internal values are unset. -/
def Fresh (o : Options) : Prop :=
  o.redirectUrl = none ∧ o.proxyUrls = [] ∧ o.CompiledRegex = []

/-- The state `Validate` leaves when it completes. -/
def validatedOpts (lib : Lib) (o : Options) : Options :=
  { o with
    redirectUrl := redirectEntry lib o.RedirectUrl
    proxyUrls := o.proxyUrls ++ o.Upstreams.map (upstreamEntry lib)
    CompiledRegex := o.CompiledRegex ++ o.SkipAuthRegex.map (regexEntry lib) }

/-- All messages `Validate` collects when it completes, in detection order. -/
def allMsgs (lib : Lib) (o : Options) : List String :=
  missingMsgs o ++ redirectMsgs lib o.RedirectUrl ++ regexMsgs lib o.SkipAuthRegex

/-! ## Concrete configurations -/

/-- No required setting present and a redirect URL that does not parse. -/
def cfgBadRedirect : Options := { RedirectUrl := ":foo" }

/-- The zero value `Options{}`. -/
def cfgEmpty : Options := {}

/-- All required settings present, one upstream that does not parse. -/
def cfgBadUpstream : Options :=
  { Upstreams := [":foo"], CookieSecret := "secret", ClientID := "id", ClientSecret := "cs" }

/-- All required settings present, one skip-auth pattern that does not compile. -/
def cfgBadRegex : Options :=
  { Upstreams := ["http://foo"], CookieSecret := "secret", ClientID := "id", ClientSecret := "cs",
    SkipAuthRegex := ["(bad"] }

/-- All required settings present, the upstream of scenario A. -/
def cfgFoo : Options :=
  { Upstreams := ["http://foo"], CookieSecret := "secret", ClientID := "id", ClientSecret := "cs" }

/-- All required settings present, the upstream of scenario B. -/
def cfgFooBar : Options :=
  { Upstreams := ["http://foo/bar"], CookieSecret := "secret", ClientID := "id",
    ClientSecret := "cs" }

/-- The defaults of `NewOptions` with two upstreams, a bad redirect URL and two patterns, one
of which does not compile; the cookie secret is set, client id and secret are not. -/
def cfgMixed : Options :=
  { NewOptions with
    Upstreams := ["http://foo", "http://foo/bar"]
    CookieSecret := "secret"
    RedirectUrl := ":foo"
    SkipAuthRegex := ["^/health$", "(bad"] }

/-- All required settings present; the second upstream does not parse. -/
def cfgSecondUpstreamBad : Options :=
  { Upstreams := ["http://foo", ":9000"], CookieSecret := "secret", ClientID := "id",
    ClientSecret := "cs" }

/-! ## URL rendering and escaping (`net/url`)

`(*url.URL).String()` and `url.QueryEscape`, which `providers.go` calls, after the `net/url` of
the Go release the repository was written for. Strings are escaped byte by byte. -/

/-- The escaping modes of `net/url`. -/
inductive encoding where
  | encodePath
  | encodeUserPassword
  | encodeQueryComponent
  | encodeFragment
deriving DecidableEq, Repr

/-- The function `shouldEscape` of `net/url`, on an ASCII character; every byte above 127 is
escaped. -/
def shouldEscape (c : Char) (mode : encoding) : Bool :=
  if c.isAlphanum then false
  else if c == '-' || c == '_' || c == '.' || c == '~' then false
  else if c == '$' || c == '&' || c == '+' || c == ',' || c == '/' || c == ':' || c == ';'
      || c == '=' || c == '?' || c == '@' then
    match mode with
    | .encodePath => c == '?'
    | .encodeUserPassword => c == '@' || c == '/' || c == ':'
    | .encodeQueryComponent => true
    | .encodeFragment => false
  else true

/-- The n-th character of `0123456789ABCDEF`. -/
def hexDigit (n : Nat) : Char :=
  "0123456789ABCDEF".data.getD n '0'

/-- The bytes given as `%XX` triples. -/
def percentBytes : List UInt8 → List Char
  | [] => []
  | b :: rest => '%' :: hexDigit (b.toNat / 16) :: hexDigit (b.toNat % 16) :: percentBytes rest

/-- What `escape` writes for one character of its input. -/
def escapeChar (mode : encoding) (c : Char) : List Char :=
  if c == ' ' && mode == encoding.encodeQueryComponent then ['+']
  else if c.toNat < 128 && !shouldEscape c mode then [c]
  else percentBytes (String.utf8EncodeChar c)

/-- Escapes each character of the list in turn. -/
def escapeList (mode : encoding) : List Char → List Char
  | [] => []
  | c :: rest => escapeChar mode c ++ escapeList mode rest

/-- The function `escape` of `net/url`. -/
def escape (s : String) (mode : encoding) : String :=
  String.mk (escapeList mode s.data)

/-- Go's `(*url.URL).String()` on a non-nil receiver. -/
def URL.toString (u : URL) : String :=
  let buf := if u.Scheme ≠ "" then u.Scheme ++ ":" else ""
  let buf :=
    if URL.Opaque u ≠ "" then buf ++ URL.Opaque u
    else
      let buf :=
        if u.Scheme ≠ "" ∨ u.Host ≠ "" ∨ u.User ≠ none then
          let buf := buf ++ "//"
          let buf := match u.User with
            | some ui => buf ++ ui ++ "@"
            | none => buf
          if u.Host ≠ "" then buf ++ u.Host else buf
        else buf
      let buf :=
        if u.Path ≠ "" ∧ u.Path.data.head? ≠ some '/' ∧ u.Host ≠ "" then buf ++ "/" else buf
      buf ++ escape u.Path encoding.encodePath
  let buf := if u.RawQuery ≠ "" then buf ++ "?" ++ u.RawQuery else buf
  if u.Fragment ≠ "" then buf ++ "#" ++ escape u.Fragment encoding.encodeFragment else buf

/-- Calling `String()` through a `*url.URL`: a nil pointer faults. -/
def urlPtrString : Option URL → Outcome String
  | none => .panic
  | some u => .ok u.toString

/-! ## JSON documents (`go-simplejson`) -/

/-- The data a `simplejson.Json` wraps. -/
inductive Json where
  | null
  | bool (b : Bool)
  | number (text : String)
  | string (s : String)
  | array (items : List Json)
  | object (fields : List (String × Json))

/-- The method `Get` of `simplejson.Json`: the member under `key` of an object, and a wrapped
nil when the data is not an object or has no such member. -/
def Json.Get (j : Json) (key : String) : Json :=
  match j with
  | .object fields =>
    match fields.lookup key with
    | some v => v
    | none => .null
  | _ => .null

/-- The method `String` of `simplejson.Json`: the wrapped string, or the error of the failed
type assertion. -/
def Json.StringValue (j : Json) : Except String String :=
  match j with
  | .string s => .ok s
  | _ => .error "type assertion to string failed"

/-! ## The providers (`providers.go`) -/

/-- The struct `ProviderData` of `providers.go`. -/
structure ProviderData where
  loginUrl : Option URL
  redeemUrl : Option URL
  profileUrl : Option URL
  scope : String
deriving DecidableEq, Repr

/-- The function `NewProviderData` of `providers.go`. -/
def NewProviderData (opts : Options) : ProviderData :=
  { loginUrl := opts.loginUrl
    redeemUrl := opts.redeemUrl
    profileUrl := opts.profileUrl
    scope := opts.Scope }

/-- The method `(*ProviderData).LoginUrl`. -/
def ProviderData.LoginUrl (p : ProviderData) : Outcome String :=
  urlPtrString p.loginUrl

/-- The method `(*ProviderData).RedeemUrl`. -/
def ProviderData.RedeemUrl (p : ProviderData) : Outcome String :=
  urlPtrString p.redeemUrl

/-- The method `(*ProviderData).Scope`. -/
def ProviderData.Scope (p : ProviderData) : String :=
  p.scope

/-- The struct `GoogleProvider`, which embeds `*ProviderData`. -/
structure GoogleProvider extends ProviderData
deriving DecidableEq, Repr

/-- The struct `MyUsaProvider`, which embeds `*ProviderData`. -/
structure MyUsaProvider extends ProviderData
deriving DecidableEq, Repr

/-- The function `NewGoogleProvider` of `providers.go`; it writes the defaults into `opts`, so
the configuration after the call is returned too. -/
def NewGoogleProvider (opts : Options) : GoogleProvider × Options :=
  let opts :=
    if opts.LoginUrl = "" then
      let u : URL := { Scheme := "https", Host := "accounts.google.com", Path := "/o/oauth2/auth" }
      { opts with loginUrl := some u }
    else opts
  let opts :=
    if opts.RedeemUrl = "" then
      let u : URL := { Scheme := "https", Host := "accounts.google.com", Path := "/o/oauth2/token" }
      { opts with redeemUrl := some u }
    else opts
  let opts := if opts.Scope = "" then { opts with Scope := "profile email" } else opts
  ({ toProviderData := NewProviderData opts }, opts)

/-- The constant `myUsaHost` of `NewMyUsaProvider`. -/
def myUsaHost : String := "alpha.my.usa.gov"

/-- The function `NewMyUsaProvider` of `providers.go`; it writes the defaults into `opts`, so
the configuration after the call is returned too. -/
def NewMyUsaProvider (opts : Options) : MyUsaProvider × Options :=
  let opts :=
    if opts.LoginUrl = "" then
      let u : URL := { Scheme := "https", Host := myUsaHost, Path := "/oauth/authorize" }
      { opts with loginUrl := some u }
    else opts
  let opts :=
    if opts.RedeemUrl = "" then
      let u : URL := { Scheme := "https", Host := myUsaHost, Path := "/oauth/token" }
      { opts with redeemUrl := some u }
    else opts
  let opts :=
    if opts.ProfileUrl = "" then
      let u : URL := { Scheme := "https", Host := myUsaHost, Path := "/api/v1/profile" }
      { opts with profileUrl := some u }
    else opts
  let opts := if opts.Scope = "" then { opts with Scope := "profile.email" } else opts
  ({ toProviderData := NewProviderData opts }, opts)

/-- The interface `Provider` with its two implementations. -/
inductive Provider where
  | google (p : GoogleProvider)
  | myusa (p : MyUsaProvider)
deriving DecidableEq, Repr

/-- The `ProviderData` a provider embeds. -/
def Provider.data : Provider → ProviderData
  | .google p => p.toProviderData
  | .myusa p => p.toProviderData

/-- The interface method `LoginUrl`, promoted from the embedded `ProviderData`. -/
def Provider.LoginUrl (p : Provider) : Outcome String := p.data.LoginUrl

/-- The interface method `RedeemUrl`, promoted from the embedded `ProviderData`. -/
def Provider.RedeemUrl (p : Provider) : Outcome String := p.data.RedeemUrl

/-- The interface method `Scope`, promoted from the embedded `ProviderData`. -/
def Provider.Scope (p : Provider) : String := p.data.Scope

/-- The function `NewProvider` of `providers.go`, with the configuration after the call. -/
def NewProvider (opts : Options) : Provider × Options :=
  if opts.Provider = "myusa" then
    let (p, opts) := NewMyUsaProvider opts
    (.myusa p, opts)
  else
    let (p, opts) := NewGoogleProvider opts
    (.google p, opts)

/-! ## Resolving the email address (`providers.go`) -/

/-- The segments of a character list around each occurrence of `sep`. -/
def splitChars (sep : Char) : List Char → List (List Char)
  | [] => [[]]
  | c :: rest =>
    if c == sep then [] :: splitChars sep rest
    else
      match splitChars sep rest with
      | [] => [[c]]
      | seg :: segs => (c :: seg) :: segs

/-- Go's `strings.Split` for a separator of one character, the only use in the source. -/
def stringsSplit (s : String) (sep : Char) : List String :=
  (splitChars sep s.data).map String.mk

/-- The library functions behind the Google provider's token decoding: `base64UrlDecode` is
`base64.URLEncoding.DecodeString` and `NewJson` is `simplejson.NewJson`. -/
structure Codec where
  base64UrlDecode : String → Except String (List UInt8)
  NewJson : List UInt8 → Except String Json

/-- Modelled from the spec: `jwtDecodeSegment` is called by `GetEmailAddress` and defined in a
file of the repository that is not among the sources. The spec: decode the segment using URL-safe
base64 decoding, correcting for omitted padding (pad with `=` to a multiple of 4 characters before
decoding). -/
def jwtDecodeSegment (codec : Codec) (seg : String) : Except String (List UInt8) :=
  let l := seg.length % 4
  let seg := if l > 0 then seg ++ String.mk (List.replicate (4 - l) '=') else seg
  codec.base64UrlDecode seg

/-- The method `(*GoogleProvider).GetEmailAddress` of `providers.go`. The result is the returned
pair of email and error; `jwt[1]` faults when the token has a single segment. -/
def GoogleProvider.GetEmailAddress (codec : Codec) (_s : GoogleProvider) (auth_response : Json)
    (_unused_access_token : String) : Outcome (String × Option String) :=
  match (auth_response.Get "id_token").StringValue with
  | .error err => .ok ("", some err)
  | .ok idToken =>
    let jwt := stringsSplit idToken '.'
    match jwt[1]? with
    | none => .panic
    | some seg =>
      match jwtDecodeSegment codec seg with
      | .error err => .ok ("", some err)
      | .ok b =>
        match codec.NewJson b with
        | .error err => .ok ("", some err)
        | .ok data =>
          match (data.Get "email").StringValue with
          | .error err => .ok ("", some err)
          | .ok email => .ok (email, none)

/-- The fields of `http.Request` that `http.NewRequest` fills from its arguments. -/
structure Request where
  Method : String
  URL : URL
deriving DecidableEq, Repr

/-- Go's `http.NewRequest(method, urlStr, nil)`: the URL string is parsed with `url.Parse`. -/
def httpNewRequest (lib : Lib) (method urlStr : String) : Except String Request :=
  match lib.urlParse urlStr with
  | .error err => .error err
  | .ok u => .ok { Method := method, URL := u }

/-- The first statement of `(*MyUsaProvider).GetEmailAddress` (lines 113-114): the request built
by `http.NewRequest`; rendering a nil `profileUrl` faults. -/
def MyUsaProvider.profileRequest (lib : Lib) (s : MyUsaProvider) (access_token : String) :
    Outcome (Except String Request) :=
  match urlPtrString s.profileUrl with
  | .panic => .panic
  | .ok profile => .ok (httpNewRequest lib "GET" (profile ++ "?access_token=" ++ access_token))

/-- The method `(*MyUsaProvider).GetEmailAddress` of `providers.go`. `apiRequest` is the
repository's function of that name, which performs the request and parses the response body; it
is not among the sources and is taken as a parameter. -/
def MyUsaProvider.GetEmailAddress (lib : Lib) (apiRequest : Request → Except String Json)
    (s : MyUsaProvider) (_auth_response : Json) (access_token : String) :
    Outcome (String × Option String) :=
  match s.profileRequest lib access_token with
  | .panic => .panic
  | .ok (.error err) => .ok ("", some err)
  | .ok (.ok req) =>
    match apiRequest req with
    | .error err => .ok ("", some err)
    | .ok json =>
      match (json.Get "email").StringValue with
      | .error err => .ok ("", some err)
      | .ok email => .ok (email, none)

/-! ## The package `providers` (`providers/myusa.go`) -/

namespace providers

/-- The struct `ProviderData` of the package `providers`, with the fields `myusa.go` uses; its
declaration is not among the sources. -/
structure ProviderData where
  LoginUrl : Option URL
  RedeemUrl : Option URL
  ProfileUrl : Option URL
  Scope : String
deriving DecidableEq, Repr

/-- The struct `MyUsaProvider` of `providers/myusa.go`, which embeds `*ProviderData`. -/
structure MyUsaProvider extends ProviderData
deriving DecidableEq, Repr

/-- The function `NewMyUsaProvider` of `providers/myusa.go`. Each test renders the URL through
its pointer, so a nil field faults. -/
def NewMyUsaProvider (p : ProviderData) : Outcome MyUsaProvider :=
  match urlPtrString p.LoginUrl with
  | .panic => .panic
  | .ok login =>
    let p :=
      if login = "" then
        let u : URL := { Scheme := "https", Host := myUsaHost, Path := "/oauth/authorize" }
        { p with LoginUrl := some u }
      else p
    match urlPtrString p.RedeemUrl with
    | .panic => .panic
    | .ok redeem =>
      let p :=
        if redeem = "" then
          let u : URL := { Scheme := "https", Host := myUsaHost, Path := "/oauth/token" }
          { p with RedeemUrl := some u }
        else p
      match urlPtrString p.ProfileUrl with
      | .panic => .panic
      | .ok profile =>
        let p :=
          if profile = "" then
            let u : URL := { Scheme := "https", Host := myUsaHost, Path := "/api/v1/profile" }
            { p with ProfileUrl := some u }
          else p
        let p := if p.Scope = "" then { p with Scope := "profile.email" } else p
        .ok { toProviderData := p }

/-- The first statement of `MyUsaProvider.GetEmailAddress` in `providers/myusa.go`
(lines 42-43). -/
def MyUsaProvider.profileRequest (lib : Lib) (s : MyUsaProvider) (access_token : String) :
    Outcome (Except String Request) :=
  match urlPtrString s.ProfileUrl with
  | .panic => .panic
  | .ok profile => .ok (httpNewRequest lib "GET" (profile ++ "?access_token=" ++ access_token))

/-- The method `MyUsaProvider.GetEmailAddress` of `providers/myusa.go`; `apiRequest` is
`api.Request`, which is not among the sources. -/
def MyUsaProvider.GetEmailAddress (lib : Lib) (apiRequest : Request → Except String Json)
    (s : MyUsaProvider) (_auth_response : Json) (access_token : String) :
    Outcome (String × Option String) :=
  match s.profileRequest lib access_token with
  | .panic => .panic
  | .ok (.error err) => .ok ("", some err)
  | .ok (.ok req) =>
    match apiRequest req with
    | .error err => .ok ("", some err)
    | .ok json =>
      match (json.Get "email").StringValue with
      | .error err => .ok ("", some err)
      | .ok email => .ok (email, none)

end providers

/-! ## A concrete codec instance

`exampleCodec` is a small executable `Codec`: a decoder of padded URL-safe base64 and a parser of
JSON objects whose members are strings without escapes, written without blanks. -/

/-- The value of a character of the URL-safe base64 alphabet. -/
def b64Value (c : Char) : Option Nat :=
  if 'A' ≤ c ∧ c ≤ 'Z' then some (c.toNat - 65)
  else if 'a' ≤ c ∧ c ≤ 'z' then some (c.toNat - 97 + 26)
  else if '0' ≤ c ∧ c ≤ '9' then some (c.toNat - 48 + 52)
  else if c = '-' then some 62
  else if c = '_' then some 63
  else none

/-- The bytes encoded by the first `n` sextets of a group of four. -/
def b64Group (a b c d : Nat) (n : Nat) : List UInt8 :=
  let v := ((a * 64 + b) * 64 + c) * 64 + d
  ([v / 65536 % 256, v / 256 % 256, v % 256].take n).map Nat.toUInt8

/-- Decodes padded base64 text, four characters at a time. -/
def b64Decode : List Char → Except String (List UInt8)
  | [] => .ok []
  | a :: b :: c :: d :: rest =>
    match b64Value a, b64Value b, b64Value c, b64Value d, rest with
    | some x, some y, some z, some w, _ =>
      match b64Decode rest with
      | .ok bytes => .ok (b64Group x y z w 3 ++ bytes)
      | .error e => .error e
    | some x, some y, some z, none, [] =>
      if d = '=' then .ok (b64Group x y z 0 2) else .error "illegal base64 data"
    | some x, some y, none, none, [] =>
      if c = '=' ∧ d = '=' then .ok (b64Group x y 0 0 1) else .error "illegal base64 data"
    | _, _, _, _, _ => .error "illegal base64 data"
  | _ => .error "illegal base64 data"

/-- Reads a JSON string up to its closing quote; `acc` holds the characters read, reversed. -/
def readString : List Char → List Char → Option (String × List Char)
  | [], _ => none
  | c :: rest, acc =>
    if c = '"' then some (String.mk acc.reverse, rest)
    else if c = '\\' then none
    else readString rest (c :: acc)

/-- Reads the members of an object up to its closing brace. -/
def readFields : Nat → List Char → Option (List (String × Json))
  | 0, _ => none
  | fuel + 1, cs =>
    match cs with
    | '"' :: rest =>
      match readString rest [] with
      | some (k, ':' :: '"' :: rest2) =>
        match readString rest2 [] with
        | some (v, [ '}' ]) => some [(k, Json.string v)]
        | some (v, ',' :: rest3) =>
          match readFields fuel rest3 with
          | some fs => some ((k, Json.string v) :: fs)
          | none => none
        | _ => none
      | _ => none
    | _ => none

/-- A parser of flat JSON objects with string members. -/
def exampleNewJson (b : List UInt8) : Except String Json :=
  match b.map (fun x => Char.ofNat x.toNat) with
  | [ '{', '}' ] => .ok (Json.object [])
  | '{' :: rest =>
    match readFields rest.length rest with
    | some fs => .ok (Json.object fs)
    | none => .error "invalid character"
  | _ => .error "invalid character"

/-- The concrete codec instance. -/
def exampleCodec : Codec :=
  { base64UrlDecode := fun s => b64Decode s.data
    NewJson := exampleNewJson }

/-! ## Functions describing the result of the provider constructors -/

/-- The configuration `NewGoogleProvider` leaves: each of the parsed login URL, the parsed redeem
URL and the scope is the Google default where the override string is empty, and is unchanged
otherwise. -/
def googleFilled (opts : Options) : Options :=
  { opts with
    loginUrl :=
      if opts.LoginUrl = "" then
        some { Scheme := "https", Host := "accounts.google.com", Path := "/o/oauth2/auth" }
      else opts.loginUrl
    redeemUrl :=
      if opts.RedeemUrl = "" then
        some { Scheme := "https", Host := "accounts.google.com", Path := "/o/oauth2/token" }
      else opts.redeemUrl
    Scope := if opts.Scope = "" then "profile email" else opts.Scope }

/-- The configuration `NewMyUsaProvider` leaves: each of the parsed login, redeem and profile
URLs and the scope is the MyUSA default where the override string is empty, and is unchanged
otherwise. -/
def myUsaFilled (opts : Options) : Options :=
  { opts with
    loginUrl :=
      if opts.LoginUrl = "" then
        some { Scheme := "https", Host := "alpha.my.usa.gov", Path := "/oauth/authorize" }
      else opts.loginUrl
    redeemUrl :=
      if opts.RedeemUrl = "" then
        some { Scheme := "https", Host := "alpha.my.usa.gov", Path := "/oauth/token" }
      else opts.redeemUrl
    profileUrl :=
      if opts.ProfileUrl = "" then
        some { Scheme := "https", Host := "alpha.my.usa.gov", Path := "/api/v1/profile" }
      else opts.profileUrl
    Scope := if opts.Scope = "" then "profile.email" else opts.Scope }

/-! ## Concrete provider configurations -/

/-- `NewOptions()` with only the provider set to `myusa`. -/
def cfgMyUsaDefaults : Options := { NewOptions with Provider := "myusa" }

/-- Only the provider is set, every override is empty. -/
def cfgMyUsaBare : Options := { Provider := "myusa" }

/-- A `ProviderData` of the package `providers` whose URLs are the parse of the empty string. -/
def dataUnset : providers.ProviderData :=
  { LoginUrl := some {}, RedeemUrl := some {}, ProfileUrl := some {}, Scope := "" }

/-- The default profile URL of MyUSA. -/
def myUsaProfileUrl : URL :=
  { Scheme := "https", Host := "alpha.my.usa.gov", Path := "/api/v1/profile" }


/-- An exchange result whose `id_token` is the given string. -/
def authWithToken (idToken : String) : Json :=
  Json.object [("access_token", Json.string "ya29.token"), ("id_token", Json.string idToken)]

/-- The provider the Google constructor builds from the zero-value configuration. -/
def googleDefault : GoogleProvider := (NewGoogleProvider cfgEmpty).1

theorem parseUrl_redirect (lib : Lib) (s : String) (msgs : List String) :
    parseUrl lib s "redirect" msgs = (redirectEntry lib s, msgs ++ redirectMsgs lib s) := by
  unfold parseUrl redirectEntry redirectMsgs redirectMsg
  cases lib.urlParse s <;> simp

theorem upstreamLoop_ok (lib : Lib) (us : List String) :
    ∀ (o : Options) (msgs : List String), (∀ u ∈ us, failsToParse lib u = false) →
      upstreamLoop lib us o msgs =
        .ok ({ o with proxyUrls := o.proxyUrls ++ us.map (upstreamEntry lib) }, msgs) := by
  induction us with
  | nil => intro o msgs _; simp [upstreamLoop]
  | cons u rest ih =>
    intro o msgs h
    have hu : failsToParse lib u = false := h u (List.mem_cons_self _ _)
    have hrest : ∀ v ∈ rest, failsToParse lib v = false :=
      fun v hv => h v (List.mem_cons_of_mem _ hv)
    unfold failsToParse at hu
    unfold upstreamLoop upstreamBody
    cases hp : lib.urlParse u with
    | error e => rw [hp] at hu; simp at hu
    | ok url =>
      simp only []
      rw [ih _ _ hrest]
      simp [upstreamEntry, hp]

theorem upstreamLoop_panic (lib : Lib) (us : List String) :
    ∀ (o : Options) (msgs : List String), (∃ u ∈ us, failsToParse lib u = true) →
      upstreamLoop lib us o msgs = .panic := by
  induction us with
  | nil => intro o msgs h; simp at h
  | cons u rest ih =>
    intro o msgs h
    unfold upstreamLoop upstreamBody
    cases hp : lib.urlParse u with
    | error e => simp
    | ok url =>
      simp only []
      apply ih
      obtain ⟨v, hv, hf⟩ := h
      rcases List.mem_cons.mp hv with rfl | hv
      · simp [failsToParse, hp] at hf
      · exact ⟨v, hv, hf⟩

theorem regexLoop_eq (lib : Lib) (ps : List String) :
    ∀ (o : Options) (msgs : List String),
      regexLoop lib ps o msgs =
        ({ o with CompiledRegex := o.CompiledRegex ++ ps.map (regexEntry lib) },
          msgs ++ regexMsgs lib ps) := by
  induction ps with
  | nil => intro o msgs; simp [regexLoop, regexMsgs]
  | cons u rest ih =>
    intro o msgs
    unfold regexLoop regexBody
    cases hp : lib.regexpCompile u with
    | error e => simp [ih, regexEntry, regexMsgs, regexMsg, hp]
    | ok re => simp [ih, regexEntry, regexMsgs, hp]

theorem Validate_of_all_parse (lib : Lib) (o : Options)
    (h : ∀ u ∈ o.Upstreams, failsToParse lib u = false) :
    Validate lib o = .ok ⟨validatedOpts lib o, allMsgs lib o, reportOf (allMsgs lib o)⟩ := by
  unfold Validate
  simp only [parseUrl_redirect]
  rw [upstreamLoop_ok lib o.Upstreams _ _ h]
  simp only [regexLoop_eq]
  unfold reportOf allMsgs validatedOpts missingMsgs
  split_ifs <;> simp_all

theorem Validate_of_some_fail (lib : Lib) (o : Options)
    (h : ∃ u ∈ o.Upstreams, failsToParse lib u = true) :
    Validate lib o = .panic := by
  unfold Validate
  simp only [parseUrl_redirect]
  rw [upstreamLoop_panic lib o.Upstreams _ _ h]

theorem Validate_ok_inv (lib : Lib) (o : Options) (r : ValidateResult)
    (h : Validate lib o = .ok r) :
    (∀ u ∈ o.Upstreams, failsToParse lib u = false) ∧
      r = ⟨validatedOpts lib o, allMsgs lib o, reportOf (allMsgs lib o)⟩ := by
  by_cases hall : ∀ u ∈ o.Upstreams, failsToParse lib u = false
  · refine ⟨hall, ?_⟩
    rw [Validate_of_all_parse lib o hall] at h
    exact (Outcome.ok.inj h).symm
  · exfalso
    have hex : ∃ u ∈ o.Upstreams, failsToParse lib u = true := by
      by_contra hne
      apply hall
      intro u hu
      cases hf : failsToParse lib u with
      | false => rfl
      | true => exact absurd ⟨u, hu, hf⟩ hne
    rw [Validate_of_some_fail lib o hex] at h
    cases h

theorem length_missingMsgs (o : Options) :
    (missingMsgs o).length =
      (if o.Upstreams.length < 1 then 1 else 0) + (if o.CookieSecret = "" then 1 else 0) +
        (if o.ClientID = "" then 1 else 0) + (if o.ClientSecret = "" then 1 else 0) := by
  unfold missingMsgs
  split_ifs <;> rfl

theorem length_redirectMsgs (lib : Lib) (s : String) :
    (redirectMsgs lib s).length = if failsToParse lib s = true then 1 else 0 := by
  unfold redirectMsgs failsToParse
  cases lib.urlParse s <;> simp

theorem length_regexMsgs (lib : Lib) (ps : List String) :
    (regexMsgs lib ps).length = (ps.filter (failsToCompile lib)).length := by
  induction ps with
  | nil => rfl
  | cons u rest ih =>
    unfold regexMsgs
    cases hp : lib.regexpCompile u with
    | error e => simp [List.filter, failsToCompile, hp, ih]
    | ok re => simp [List.filter, failsToCompile, hp, ih]

theorem regexMsgs_of_all_compile (lib : Lib) (ps : List String)
    (h : ∀ p ∈ ps, failsToCompile lib p = false) : regexMsgs lib ps = [] := by
  induction ps with
  | nil => rfl
  | cons u rest ih =>
    have hu : failsToCompile lib u = false := h u (List.mem_cons_self _ _)
    unfold failsToCompile at hu
    unfold regexMsgs
    cases hp : lib.regexpCompile u with
    | error e => rw [hp] at hu; simp at hu
    | ok re => exact ih (fun p hp => h p (List.mem_cons_of_mem _ hp))

theorem mem_regexMsgs (lib : Lib) (ps : List String) (p err : String) (hp : p ∈ ps)
    (he : lib.regexpCompile p = .error err) : regexMsg lib p err ∈ regexMsgs lib ps := by
  induction ps with
  | nil => simp at hp
  | cons u rest ih =>
    unfold regexMsgs
    rcases List.mem_cons.mp hp with rfl | hrest
    · rw [he]; exact List.mem_cons_self _ _
    · cases lib.regexpCompile u with
      | error e => exact List.mem_cons_of_mem _ (ih hrest)
      | ok re => exact ih hrest

theorem getElem?_append_map {α β : Type} (f : α → β) (l : List β) (xs : List α) (i : Nat) :
    (l ++ xs.map f)[l.length + i]? = (xs[i]?).map f := by
  rw [List.getElem?_append_right (Nat.le_add_right _ _)]
  simp

/-- `Validate` faults (nil dereference at `upstreamUrl.Path`) exactly when some upstream string
fails to parse, and completes otherwise. -/
theorem Validate_panic_iff (lib : Lib) (o : Options) :
    Validate lib o = .panic ↔ ∃ u ∈ o.Upstreams, ∃ err, lib.urlParse u = .error err := by
  constructor
  · intro h
    by_contra hne
    have hall : ∀ u ∈ o.Upstreams, failsToParse lib u = false := by
      intro u hu
      unfold failsToParse
      cases hp : lib.urlParse u with
      | error e => exact absurd ⟨u, hu, e, hp⟩ hne
      | ok url => rfl
    rw [Validate_of_all_parse lib o hall] at h
    cases h
  · rintro ⟨u, hu, err, he⟩
    exact Validate_of_some_fail lib o ⟨u, hu, by simp [failsToParse, he]⟩

theorem redirectMsg_eq (lib : Lib) (s err : String) :
    redirectMsg lib s err = "error parsing redirect-url=" ++ lib.quote s ++ " " ++ err := by
  unfold redirectMsg
  have h : "error parsing " ++ "redirect" ++ "-url=" = "error parsing redirect-url=" := by decide
  rw [h]

theorem redirectMsg_infix (q err : String) :
    List.IsInfix "redirect".data ("error parsing redirect-url=" ++ q ++ " " ++ err).data ∧
      List.IsInfix q.data ("error parsing redirect-url=" ++ q ++ " " ++ err).data ∧
      List.IsInfix err.data ("error parsing redirect-url=" ++ q ++ " " ++ err).data := by
  have h : "error parsing redirect-url=" = "error parsing " ++ "redirect" ++ "-url=" := by decide
  refine ⟨?_, ?_, ?_⟩
  · rw [h]
    exact ⟨"error parsing ".data, "-url=".data ++ q.data ++ " ".data ++ err.data, by
      simp only [String.data_append, List.append_assoc]⟩
  · exact ⟨"error parsing redirect-url=".data, " ".data ++ err.data, by
      simp only [String.data_append, List.append_assoc]⟩
  · exact ⟨"error parsing redirect-url=".data ++ q.data ++ " ".data, [], by
      simp only [String.data_append, List.append_assoc, List.append_nil]⟩

theorem NewGoogleProvider_eq (opts : Options) :
    NewGoogleProvider opts =
      ({ toProviderData := NewProviderData (googleFilled opts) }, googleFilled opts) := by
  by_cases h1 : opts.LoginUrl = "" <;> by_cases h2 : opts.RedeemUrl = "" <;>
    by_cases h3 : opts.Scope = "" <;>
    simp [NewGoogleProvider, googleFilled, NewProviderData, h1, h2, h3]

theorem NewMyUsaProvider_eq (opts : Options) :
    NewMyUsaProvider opts =
      ({ toProviderData := NewProviderData (myUsaFilled opts) }, myUsaFilled opts) := by
  by_cases h1 : opts.LoginUrl = "" <;> by_cases h2 : opts.RedeemUrl = "" <;>
    by_cases h3 : opts.ProfileUrl = "" <;> by_cases h4 : opts.Scope = "" <;>
    simp [NewMyUsaProvider, myUsaFilled, NewProviderData, myUsaHost, h1, h2, h3, h4]

theorem NewProvider_eq (opts : Options) :
    NewProvider opts =
      if opts.Provider = "myusa" then
        (Provider.myusa { toProviderData := NewProviderData (myUsaFilled opts) },
          myUsaFilled opts)
      else
        (Provider.google { toProviderData := NewProviderData (googleFilled opts) },
          googleFilled opts) := by
  unfold NewProvider
  rw [NewGoogleProvider_eq, NewMyUsaProvider_eq]

theorem splitChars_ne_nil (sep : Char) (l : List Char) : splitChars sep l ≠ [] := by
  cases l with
  | nil => simp [splitChars]
  | cons c rest =>
    unfold splitChars
    split_ifs
    · simp
    · cases splitChars sep rest <;> simp

theorem splitChars_append_sep (sep : Char) (h rest : List Char) (hn : sep ∉ h) :
    splitChars sep (h ++ sep :: rest) = h :: splitChars sep rest := by
  induction h with
  | nil => simp [splitChars]
  | cons c h ih =>
    have hc : (c == sep) = false := by
      have : c ≠ sep := fun e => hn (by simp [e])
      simpa using this
    have ih2 := ih (fun hm => hn (List.mem_cons_of_mem _ hm))
    simp [splitChars, hc, ih2]

theorem stringsSplit_second (header payload sig : String) (hh : '.' ∉ header.data)
    (hp : '.' ∉ payload.data) :
    (stringsSplit (header ++ "." ++ payload ++ "." ++ sig) '.')[1]? = some payload := by
  have hd : (header ++ "." ++ payload ++ "." ++ sig).data =
      header.data ++ '.' :: (payload.data ++ '.' :: sig.data) := by
    simp [String.data_append]
  unfold stringsSplit
  rw [hd, splitChars_append_sep '.' _ _ hh, splitChars_append_sep '.' _ _ hp]
  simp

theorem jwtDecodeSegment_unpadded (codec : Codec) (core : String) (k : Nat) (hk : k < 4)
    (hlen : (core.length + k) % 4 = 0) :
    jwtDecodeSegment codec core =
      codec.base64UrlDecode (core ++ String.mk (List.replicate k '=')) := by
  unfold jwtDecodeSegment
  by_cases h0 : core.length % 4 > 0
  · have hk4 : 4 - core.length % 4 = k := by omega
    simp only [h0, if_true, hk4]
  · have hk0 : k = 0 := by omega
    subst hk0
    simp only [h0, if_false, List.replicate]
    congr 1
    apply String.ext
    simp [String.data_append]

theorem jwtDecodeSegment_padded (codec : Codec) (core : String) (k : Nat)
    (hlen : (core.length + k) % 4 = 0) :
    jwtDecodeSegment codec (core ++ String.mk (List.replicate k '=')) =
      codec.base64UrlDecode (core ++ String.mk (List.replicate k '=')) := by
  have hl : (core ++ String.mk (List.replicate k '=')).length = core.length + k := by
    rw [String.length_append]
    show core.length + (List.replicate k '=').length = core.length + k
    rw [List.length_replicate]
  have hnot : ¬ ((core ++ String.mk (List.replicate k '=')).length % 4 > 0) := by
    rw [hl, hlen]
    decide
  unfold jwtDecodeSegment
  simp only [hnot, if_false]

theorem stringsJoin_go (sep : String) (rest : List String) :
    ∀ (acc a : String),
      acc ++ stringsJoin (a :: rest) sep = String.intercalate.go (acc ++ a) sep rest := by
  induction rest with
  | nil => intro acc a; rfl
  | cons b bs ih =>
    intro acc a
    show acc ++ (a ++ sep ++ stringsJoin (b :: bs) sep) =
      String.intercalate.go (acc ++ a ++ sep ++ b) sep bs
    rw [← ih (acc ++ a ++ sep) b]
    simp [String.append_assoc]

theorem stringsJoin_eq_intercalate (msgs : List String) (sep : String) :
    stringsJoin msgs sep = sep.intercalate msgs := by
  cases msgs with
  | nil => rfl
  | cons a rest =>
    have h := stringsJoin_go sep rest "" a
    simpa [String.intercalate] using h

/-! ## The claims -/

/-- C1, as stated, fails: with no upstream, cookie secret, client id or client secret, and the
redirect URL `:foo` (which does not parse), `Validate` collects 5 messages, not 4. -/
theorem all_missing_not_always_four :
    cfgBadRedirect.Upstreams = [] ∧ cfgBadRedirect.CookieSecret = "" ∧
      cfgBadRedirect.ClientID = "" ∧ cfgBadRedirect.ClientSecret = "" ∧
      ∃ r, Validate exampleLib cfgBadRedirect = .ok r ∧ r.msgs.length = 5 ∧ r.msgs.length ≠ 4 := by
  refine ⟨rfl, rfl, rfl, rfl, ⟨validatedOpts exampleLib cfgBadRedirect,
    allMsgs exampleLib cfgBadRedirect, reportOf (allMsgs exampleLib cfgBadRedirect)⟩, ?_, ?_, ?_⟩
  · exact Validate_of_all_parse exampleLib cfgBadRedirect (by decide)
  · decide
  · decide

/-- C1, amended: for every configuration with zero upstream entries and empty cookie secret,
client id and client secret, `Validate` completes and its messages start with the four
missing-setting messages, one per missing field in the order upstream, cookie-secret, client-id,
client-secret, whatever the other fields hold; the remaining messages are those of the redirect
URL and of the skip-auth patterns, so the total is 4 plus one if the redirect URL fails to parse
plus the number of patterns that fail to compile, and it is exactly those four messages when the
redirect URL parses and every pattern compiles. -/
theorem Validate_all_missing (lib : Lib) (o : Options)
    (hu : o.Upstreams = []) (hc : o.CookieSecret = "") (hi : o.ClientID = "")
    (hs : o.ClientSecret = "") :
    ∃ r, Validate lib o = .ok r ∧
      r.msgs = ["missing setting: upstream", "missing setting: cookie-secret",
          "missing setting: client-id", "missing setting: client-secret"] ++
        (redirectMsgs lib o.RedirectUrl ++ regexMsgs lib o.SkipAuthRegex) ∧
      r.msgs.length = 4 + (if failsToParse lib o.RedirectUrl = true then 1 else 0) +
        (o.SkipAuthRegex.filter (failsToCompile lib)).length ∧
      (failsToParse lib o.RedirectUrl = false →
        (∀ p ∈ o.SkipAuthRegex, failsToCompile lib p = false) →
        r.msgs = ["missing setting: upstream", "missing setting: cookie-secret",
          "missing setting: client-id", "missing setting: client-secret"]) := by
  have hall : ∀ u ∈ o.Upstreams, failsToParse lib u = false := by
    rw [hu]; intro u h; simp at h
  have hm : missingMsgs o = ["missing setting: upstream", "missing setting: cookie-secret",
      "missing setting: client-id", "missing setting: client-secret"] := by
    simp [missingMsgs, hu, hc, hi, hs]
  refine ⟨_, Validate_of_all_parse lib o hall, ?_, ?_, ?_⟩
  · simp only [allMsgs, hm, List.append_assoc]
  · simp only [allMsgs, List.length_append, hm, length_redirectMsgs, length_regexMsgs]
    rfl
  · intro hr hp
    have h1 : redirectMsgs lib o.RedirectUrl = [] := by
      have := length_redirectMsgs lib o.RedirectUrl
      rw [hr] at this
      exact List.eq_nil_of_length_eq_zero (by simpa using this)
    simp only [allMsgs, hm, h1, regexMsgs_of_all_compile lib _ hp, List.append_nil]

/-- C1, amended, at the zero-value configuration: exactly the four missing-setting messages. -/
theorem Validate_all_missing_witness :
    cfgEmpty.Upstreams = [] ∧ cfgEmpty.CookieSecret = "" ∧ cfgEmpty.ClientID = "" ∧
      cfgEmpty.ClientSecret = "" ∧
      ∃ r, Validate exampleLib cfgEmpty = .ok r ∧
        r.msgs = ["missing setting: upstream", "missing setting: cookie-secret",
            "missing setting: client-id", "missing setting: client-secret"] ++
          (redirectMsgs exampleLib cfgEmpty.RedirectUrl ++
            regexMsgs exampleLib cfgEmpty.SkipAuthRegex) ∧
        r.msgs.length = 4 + (if failsToParse exampleLib cfgEmpty.RedirectUrl = true then 1 else 0) +
          (cfgEmpty.SkipAuthRegex.filter (failsToCompile exampleLib)).length ∧
        (failsToParse exampleLib cfgEmpty.RedirectUrl = false →
          (∀ p ∈ cfgEmpty.SkipAuthRegex, failsToCompile exampleLib p = false) →
          r.msgs = ["missing setting: upstream", "missing setting: cookie-secret",
            "missing setting: client-id", "missing setting: client-secret"]) :=
  ⟨rfl, rfl, rfl, rfl, Validate_all_missing exampleLib cfgEmpty rfl rfl rfl rfl⟩

/-- C2: `Validate` can panic. On a configuration with every required setting present and the
single upstream `:foo`, which `url.Parse` rejects, the call faults on the nil dereference
`upstreamUrl.Path` instead of returning. -/
theorem Validate_panics_on_bad_upstream :
    cfgBadUpstream.Upstreams = [":foo"] ∧
      exampleLib.urlParse ":foo" = .error "parse :foo: missing protocol scheme" ∧
      Validate exampleLib cfgBadUpstream = .panic :=
  ⟨rfl, rfl, by decide⟩

/-- C3, as stated, fails: for `SkipAuthRegex = ["(bad"]` (all else valid) `Validate` reports
exactly one message, the regex error naming the pattern, but the validated regex sequence is not
empty: it holds one nil placeholder. -/
theorem bad_regex_leaves_placeholder :
    ∃ r, Validate exampleLib cfgBadRegex = .ok r ∧
      r.msgs = ["error compiling regex=\"(bad\" error parsing regexp: missing closing ): `(bad`"] ∧
      r.opts.CompiledRegex = [none] ∧ r.opts.CompiledRegex ≠ [] := by
  refine ⟨⟨validatedOpts exampleLib cfgBadRegex, allMsgs exampleLib cfgBadRegex,
    reportOf (allMsgs exampleLib cfgBadRegex)⟩, ?_, ?_, ?_, ?_⟩
  · exact Validate_of_all_parse exampleLib cfgBadRegex (by decide)
  · decide
  · decide
  · decide

/-- C3, amended: for every skip-auth pattern that fails to compile, a completed `Validate`
reports a regex-compile-failure whose message names that pattern (`%q` of the pattern, then the
compiler's message), and appends one entry for it to the validated regex sequence, a nil
placeholder at the pattern's own position; the sequence grows by one entry per pattern. -/
theorem Validate_bad_regex (lib : Lib) (o : Options) (r : ValidateResult) (i : Nat)
    (p err : String) (hv : Validate lib o = .ok r) (hi : o.SkipAuthRegex[i]? = some p)
    (he : lib.regexpCompile p = .error err) :
    "error compiling regex=" ++ lib.quote p ++ " " ++ err ∈ r.msgs ∧
      r.opts.CompiledRegex[o.CompiledRegex.length + i]? = some none ∧
      r.opts.CompiledRegex.length = o.CompiledRegex.length + o.SkipAuthRegex.length := by
  obtain ⟨_, rfl⟩ := Validate_ok_inv lib o r hv
  have hmem : p ∈ o.SkipAuthRegex := List.getElem?_mem hi
  refine ⟨?_, ?_, ?_⟩
  · simp only [allMsgs, List.mem_append]
    exact Or.inr (mem_regexMsgs lib _ p err hmem he)
  · simp only [validatedOpts]
    rw [getElem?_append_map, hi]
    simp [regexEntry, he]
  · simp [validatedOpts]

/-- C3, amended, on `SkipAuthRegex = ["(bad"]`: one regex error and one nil entry. -/
theorem Validate_bad_regex_witness :
    Validate exampleLib cfgBadRegex = .ok ⟨validatedOpts exampleLib cfgBadRegex,
        allMsgs exampleLib cfgBadRegex, reportOf (allMsgs exampleLib cfgBadRegex)⟩ ∧
      cfgBadRegex.SkipAuthRegex[0]? = some "(bad" ∧
      exampleLib.regexpCompile "(bad" =
        .error "error parsing regexp: missing closing ): `(bad`" ∧
      ("error compiling regex=" ++ exampleLib.quote "(bad" ++ " " ++
          "error parsing regexp: missing closing ): `(bad`" ∈ allMsgs exampleLib cfgBadRegex ∧
        (validatedOpts exampleLib cfgBadRegex).CompiledRegex[cfgBadRegex.CompiledRegex.length + 0]?
          = some none ∧
        (validatedOpts exampleLib cfgBadRegex).CompiledRegex.length =
          cfgBadRegex.CompiledRegex.length + cfgBadRegex.SkipAuthRegex.length) :=
  ⟨by decide, by decide, rfl,
    Validate_bad_regex exampleLib cfgBadRegex ⟨validatedOpts exampleLib cfgBadRegex,
        allMsgs exampleLib cfgBadRegex, reportOf (allMsgs exampleLib cfgBadRegex)⟩ 0 "(bad"
      "error parsing regexp: missing closing ): `(bad`" (by decide) (by decide) rfl⟩

/-- C4: for every upstream string that parses as a URL with an empty path, the entry of the
validated upstream sequence that `Validate` produces for it (at the string's position, after
whatever the sequence held before the call) is the parsed URL with path `/`. -/
theorem Validate_upstream_empty_path (lib : Lib) (o : Options) (r : ValidateResult) (i : Nat)
    (u : String) (url : URL) (hv : Validate lib o = .ok r) (hi : o.Upstreams[i]? = some u)
    (hp : lib.urlParse u = .ok url) (he : url.Path = "") :
    ∃ e, r.opts.proxyUrls[o.proxyUrls.length + i]? = some (some e) ∧ e.Path = "/" ∧
      e = { url with Path := "/" } := by
  obtain ⟨_, rfl⟩ := Validate_ok_inv lib o r hv
  refine ⟨{ url with Path := "/" }, ?_, rfl, rfl⟩
  simp only [validatedOpts]
  rw [getElem?_append_map, hi]
  simp [upstreamEntry, hp, he]

/-- C4 on scenario A: `Upstreams = ["http://foo"]` gives path `/`. -/
theorem Validate_upstream_empty_path_witness :
    Validate exampleLib cfgFoo = .ok ⟨validatedOpts exampleLib cfgFoo, allMsgs exampleLib cfgFoo,
        reportOf (allMsgs exampleLib cfgFoo)⟩ ∧
      cfgFoo.Upstreams[0]? = some "http://foo" ∧
      exampleLib.urlParse "http://foo" = .ok { Scheme := "http", Host := "foo", Path := "" } ∧
      ∃ e, (validatedOpts exampleLib cfgFoo).proxyUrls[cfgFoo.proxyUrls.length + 0]?
          = some (some e) ∧ e.Path = "/" ∧
        e = { ({ Scheme := "http", Host := "foo", Path := "" } : URL) with Path := "/" } :=
  ⟨by decide, by decide, rfl,
    Validate_upstream_empty_path exampleLib cfgFoo ⟨validatedOpts exampleLib cfgFoo,
      allMsgs exampleLib cfgFoo, reportOf (allMsgs exampleLib cfgFoo)⟩ 0 "http://foo"
      { Scheme := "http", Host := "foo", Path := "" } (by decide) (by decide) rfl rfl⟩

/-- C5: for every upstream string that parses as a URL with a non-empty path, the entry of the
validated upstream sequence that `Validate` produces for it is the parsed URL itself, so its
path is exactly the parsed path. -/
theorem Validate_upstream_keeps_path (lib : Lib) (o : Options) (r : ValidateResult) (i : Nat)
    (u : String) (url : URL) (hv : Validate lib o = .ok r) (hi : o.Upstreams[i]? = some u)
    (hp : lib.urlParse u = .ok url) (hne : url.Path ≠ "") :
    ∃ e, r.opts.proxyUrls[o.proxyUrls.length + i]? = some (some e) ∧ e.Path = url.Path ∧
      e = url := by
  obtain ⟨_, rfl⟩ := Validate_ok_inv lib o r hv
  refine ⟨url, ?_, rfl, rfl⟩
  simp only [validatedOpts]
  rw [getElem?_append_map, hi]
  simp [upstreamEntry, hp, hne]

/-- C5 on scenario B: `Upstreams = ["http://foo/bar"]` gives path `/bar`. -/
theorem Validate_upstream_keeps_path_witness :
    Validate exampleLib cfgFooBar = .ok ⟨validatedOpts exampleLib cfgFooBar,
        allMsgs exampleLib cfgFooBar, reportOf (allMsgs exampleLib cfgFooBar)⟩ ∧
      cfgFooBar.Upstreams[0]? = some "http://foo/bar" ∧
      exampleLib.urlParse "http://foo/bar"
        = .ok { Scheme := "http", Host := "foo", Path := "/bar" } ∧
      ({ Scheme := "http", Host := "foo", Path := "/bar" } : URL).Path ≠ "" ∧
      ∃ e, (validatedOpts exampleLib cfgFooBar).proxyUrls[cfgFooBar.proxyUrls.length + 0]?
          = some (some e) ∧
        e.Path = ({ Scheme := "http", Host := "foo", Path := "/bar" } : URL).Path ∧
        e = { Scheme := "http", Host := "foo", Path := "/bar" } :=
  ⟨by decide, by decide, rfl, by decide,
    Validate_upstream_keeps_path exampleLib cfgFooBar ⟨validatedOpts exampleLib cfgFooBar,
      allMsgs exampleLib cfgFooBar, reportOf (allMsgs exampleLib cfgFooBar)⟩ 0 "http://foo/bar"
      { Scheme := "http", Host := "foo", Path := "/bar" } (by decide) (by decide) rfl
      (by decide)⟩

/-- C6: for every freshly constructed configuration whose upstream strings all parse,
`Validate` completes and the validated upstream sequence has exactly as many entries as the
upstream list; its i-th entry is the parse of the i-th upstream string with an empty path
replaced by `/` (so input order is preserved), and every entry is non-nil with a non-empty
path. -/
theorem Validate_fresh_upstreams (lib : Lib) (o : Options) (hf : Fresh o)
    (hall : ∀ u ∈ o.Upstreams, failsToParse lib u = false) :
    ∃ r, Validate lib o = .ok r ∧
      r.opts.proxyUrls.length = o.Upstreams.length ∧
      (∀ (i : Nat) (u : String) (url : URL), o.Upstreams[i]? = some u →
        lib.urlParse u = .ok url →
        r.opts.proxyUrls[i]? =
          some (some (if url.Path = "" then { url with Path := "/" } else url))) ∧
      (∀ e ∈ r.opts.proxyUrls, ∃ url, e = some url ∧ url.Path ≠ "") := by
  obtain ⟨_, hp, _⟩ := hf
  refine ⟨_, Validate_of_all_parse lib o hall, ?_, ?_, ?_⟩
  · simp [validatedOpts, hp]
  · intro i u url hi hu
    simp only [validatedOpts, hp, List.nil_append]
    rw [List.getElem?_map, hi]
    simp [upstreamEntry, hu]
  · intro e he
    simp only [validatedOpts, hp, List.nil_append, List.mem_map] at he
    obtain ⟨u, hu, rfl⟩ := he
    have hfu := hall u hu
    unfold failsToParse at hfu
    unfold upstreamEntry
    cases hq : lib.urlParse u with
    | error err => rw [hq] at hfu; simp at hfu
    | ok url =>
      by_cases hpath : url.Path = ""
      · refine ⟨{ url with Path := "/" }, by simp [hpath], ?_⟩
        show ("/" : String) ≠ ""
        decide
      · exact ⟨url, by simp [hpath], hpath⟩

/-- C6 on `NewOptions()` with upstreams `http://foo`, `http://foo/bar`. -/
theorem Validate_fresh_upstreams_witness :
    Fresh cfgMixed ∧ (∀ u ∈ cfgMixed.Upstreams, failsToParse exampleLib u = false) ∧
      ∃ r, Validate exampleLib cfgMixed = .ok r ∧
        r.opts.proxyUrls.length = cfgMixed.Upstreams.length ∧
        (∀ (i : Nat) (u : String) (url : URL), cfgMixed.Upstreams[i]? = some u →
          exampleLib.urlParse u = .ok url →
          r.opts.proxyUrls[i]? =
            some (some (if url.Path = "" then { url with Path := "/" } else url))) ∧
        (∀ e ∈ r.opts.proxyUrls, ∃ url, e = some url ∧ url.Path ≠ "") :=
  ⟨⟨rfl, rfl, rfl⟩, by decide,
    Validate_fresh_upstreams exampleLib cfgMixed ⟨rfl, rfl, rfl⟩ (by decide)⟩

/-- C7: `Validate` accumulates errors. For every configuration whose upstream strings all parse
it completes, and the number of messages it collects is the number of missing required fields
(upstream, cookie-secret, client-id, client-secret), plus one if the redirect URL fails to
parse, plus the number of skip-auth patterns that fail to compile. -/
theorem Validate_msgs_count (lib : Lib) (o : Options)
    (hall : ∀ u ∈ o.Upstreams, failsToParse lib u = false) :
    ∃ r, Validate lib o = .ok r ∧
      r.msgs.length =
        ((if o.Upstreams.length < 1 then 1 else 0) + (if o.CookieSecret = "" then 1 else 0) +
          (if o.ClientID = "" then 1 else 0) + (if o.ClientSecret = "" then 1 else 0)) +
        (if failsToParse lib o.RedirectUrl = true then 1 else 0) +
        (o.SkipAuthRegex.filter (failsToCompile lib)).length := by
  refine ⟨_, Validate_of_all_parse lib o hall, ?_⟩
  simp only [allMsgs, List.length_append, length_missingMsgs, length_redirectMsgs,
    length_regexMsgs]

/-- C7 on a configuration with two missing fields, a bad redirect URL and one bad pattern:
four messages. -/
theorem Validate_msgs_count_witness :
    (∀ u ∈ cfgMixed.Upstreams, failsToParse exampleLib u = false) ∧
      ∃ r, Validate exampleLib cfgMixed = .ok r ∧
        r.msgs.length =
          ((if cfgMixed.Upstreams.length < 1 then 1 else 0) +
            (if cfgMixed.CookieSecret = "" then 1 else 0) +
            (if cfgMixed.ClientID = "" then 1 else 0) +
            (if cfgMixed.ClientSecret = "" then 1 else 0)) +
          (if failsToParse exampleLib cfgMixed.RedirectUrl = true then 1 else 0) +
          (cfgMixed.SkipAuthRegex.filter (failsToCompile exampleLib)).length :=
  ⟨by decide, Validate_msgs_count exampleLib cfgMixed (by decide)⟩

/-- C8: an upstream string that fails to parse is not reported. For every configuration
holding such a string `Validate` faults on the nil dereference `upstreamUrl.Path`: it returns no
error naming the string and leaves no validated sequence. -/
theorem Validate_bad_upstream_panics (lib : Lib) (o : Options) (u err : String)
    (hu : u ∈ o.Upstreams) (he : lib.urlParse u = .error err) :
    Validate lib o = .panic ∧ ∀ r, Validate lib o ≠ .ok r := by
  have hp : Validate lib o = .panic := (Validate_panic_iff lib o).mpr ⟨u, hu, err, he⟩
  refine ⟨hp, ?_⟩
  intro r hr
  rw [hp] at hr
  cases hr

/-- C8 on upstreams `http://foo`, `:9000`: the second does not parse and the call faults. -/
theorem Validate_bad_upstream_panics_witness :
    ":9000" ∈ cfgSecondUpstreamBad.Upstreams ∧
      exampleLib.urlParse ":9000" = .error "parse :9000: missing protocol scheme" ∧
      (Validate exampleLib cfgSecondUpstreamBad = .panic ∧
        ∀ r, Validate exampleLib cfgSecondUpstreamBad ≠ .ok r) :=
  ⟨by decide, rfl,
    Validate_bad_upstream_panics exampleLib cfgSecondUpstreamBad ":9000"
      "parse :9000: missing protocol scheme" (by decide) rfl⟩

/-- C9: on a completed `Validate`, a redirect URL string that fails to parse contributes exactly
one message, placed after the missing-setting messages and before the pattern messages; the
message is `error parsing redirect-url=`, the `%q` rendering of the string, a blank and the
parser's message, so it contains the tag `redirect`, the rendered string and the parser's
message, and the validated redirect URL is nil. A string that parses contributes no message and
the validated redirect URL is the parsed value. -/
theorem Validate_redirect (lib : Lib) (o : Options) (r : ValidateResult)
    (hv : Validate lib o = .ok r) :
    match lib.urlParse o.RedirectUrl with
    | .error err =>
      r.opts.redirectUrl = none ∧
        parseUrl lib o.RedirectUrl "redirect" (missingMsgs o) =
          (none, missingMsgs o ++
            ["error parsing redirect-url=" ++ lib.quote o.RedirectUrl ++ " " ++ err]) ∧
        r.msgs = missingMsgs o ++
          ["error parsing redirect-url=" ++ lib.quote o.RedirectUrl ++ " " ++ err] ++
          regexMsgs lib o.SkipAuthRegex ∧
        List.IsInfix "redirect".data
          ("error parsing redirect-url=" ++ lib.quote o.RedirectUrl ++ " " ++ err).data ∧
        List.IsInfix (lib.quote o.RedirectUrl).data
          ("error parsing redirect-url=" ++ lib.quote o.RedirectUrl ++ " " ++ err).data ∧
        List.IsInfix err.data
          ("error parsing redirect-url=" ++ lib.quote o.RedirectUrl ++ " " ++ err).data
    | .ok url =>
      r.opts.redirectUrl = some url ∧
        parseUrl lib o.RedirectUrl "redirect" (missingMsgs o) = (some url, missingMsgs o) ∧
        r.msgs = missingMsgs o ++ regexMsgs lib o.SkipAuthRegex := by
  obtain ⟨_, rfl⟩ := Validate_ok_inv lib o r hv
  cases hp : lib.urlParse o.RedirectUrl with
  | error err =>
    simp only []
    refine ⟨?_, ?_, ?_, redirectMsg_infix _ _⟩
    · simp [validatedOpts, redirectEntry, hp]
    · rw [parseUrl_redirect]
      simp [redirectEntry, redirectMsgs, redirectMsg_eq, hp]
    · simp [allMsgs, redirectMsgs, redirectMsg_eq, hp]
  | ok url =>
    simp only []
    refine ⟨?_, ?_, ?_⟩
    · simp [validatedOpts, redirectEntry, hp]
    · rw [parseUrl_redirect]
      simp [redirectEntry, redirectMsgs, hp]
    · simp [allMsgs, redirectMsgs, hp]

/-- C9 on a redirect URL that does not parse (`:foo`) and on one that does (the empty
string). -/
theorem Validate_redirect_witness :
    (Validate exampleLib cfgMixed = .ok ⟨validatedOpts exampleLib cfgMixed,
        allMsgs exampleLib cfgMixed, reportOf (allMsgs exampleLib cfgMixed)⟩ ∧
      (validatedOpts exampleLib cfgMixed).redirectUrl = none ∧
      allMsgs exampleLib cfgMixed = missingMsgs cfgMixed ++
        ["error parsing redirect-url=" ++ exampleLib.quote ":foo" ++ " " ++
          "parse :foo: missing protocol scheme"] ++
        regexMsgs exampleLib cfgMixed.SkipAuthRegex) ∧
    (Validate exampleLib cfgFoo = .ok ⟨validatedOpts exampleLib cfgFoo,
        allMsgs exampleLib cfgFoo, reportOf (allMsgs exampleLib cfgFoo)⟩ ∧
      (validatedOpts exampleLib cfgFoo).redirectUrl = some {} ∧
      allMsgs exampleLib cfgFoo = missingMsgs cfgFoo ++ regexMsgs exampleLib cfgFoo.SkipAuthRegex) :=
  ⟨⟨by decide,
      (Validate_redirect exampleLib cfgMixed ⟨validatedOpts exampleLib cfgMixed,
        allMsgs exampleLib cfgMixed, reportOf (allMsgs exampleLib cfgMixed)⟩ (by decide)).1,
      (Validate_redirect exampleLib cfgMixed ⟨validatedOpts exampleLib cfgMixed,
        allMsgs exampleLib cfgMixed, reportOf (allMsgs exampleLib cfgMixed)⟩ (by decide)).2.2.1⟩,
    ⟨by decide,
      (Validate_redirect exampleLib cfgFoo ⟨validatedOpts exampleLib cfgFoo,
        allMsgs exampleLib cfgFoo, reportOf (allMsgs exampleLib cfgFoo)⟩ (by decide)).1,
      (Validate_redirect exampleLib cfgFoo ⟨validatedOpts exampleLib cfgFoo,
        allMsgs exampleLib cfgFoo, reportOf (allMsgs exampleLib cfgFoo)⟩ (by decide)).2.2⟩⟩

/-- C10, as stated, fails: `Validate` changes the configuration it is called on. On a
configuration with one upstream the receiver after the call differs from the receiver before:
the internal field `proxyUrls` has gained the parsed upstream. -/
theorem Validate_changes_receiver :
    ∃ r, Validate exampleLib cfgFoo = .ok r ∧ r.opts ≠ cfgFoo ∧
      cfgFoo.proxyUrls = [] ∧
      r.opts.proxyUrls = [some { Scheme := "http", Host := "foo", Path := "/" }] := by
  refine ⟨⟨validatedOpts exampleLib cfgFoo, allMsgs exampleLib cfgFoo,
    reportOf (allMsgs exampleLib cfgFoo)⟩, ?_, ?_, ?_, ?_⟩
  · exact Validate_of_all_parse exampleLib cfgFoo (by decide)
  · decide
  · rfl
  · decide

/-- C10, amended: a completed `Validate` leaves every user-supplied setting as it was; of the
configuration it is called on it changes only the three internal fields: `redirectUrl` is
overwritten with the parse of the redirect URL, `proxyUrls` and `CompiledRegex` are extended by
one entry per upstream and per pattern. The provider discriminator and the parsed provider URLs
that `providers.go` keeps in the configuration are left as they were too. -/
theorem Validate_keeps_settings (lib : Lib) (o : Options) (r : ValidateResult)
    (hv : Validate lib o = .ok r) :
    (r.opts.HttpAddress = o.HttpAddress ∧ r.opts.RedirectUrl = o.RedirectUrl ∧
      r.opts.ClientID = o.ClientID ∧ r.opts.ClientSecret = o.ClientSecret ∧
      r.opts.PassBasicAuth = o.PassBasicAuth ∧ r.opts.HtpasswdFile = o.HtpasswdFile ∧
      r.opts.DisplayHtpasswdForm = o.DisplayHtpasswdForm ∧
      r.opts.CookieSecret = o.CookieSecret ∧ r.opts.CookieDomain = o.CookieDomain ∧
      r.opts.CookieExpire = o.CookieExpire ∧ r.opts.CookieHttpsOnly = o.CookieHttpsOnly ∧
      r.opts.CookieHttpOnly = o.CookieHttpOnly ∧
      r.opts.AuthenticatedEmailsFile = o.AuthenticatedEmailsFile ∧
      r.opts.GoogleAppsDomains = o.GoogleAppsDomains ∧ r.opts.Upstreams = o.Upstreams ∧
      r.opts.SkipAuthRegex = o.SkipAuthRegex ∧ r.opts.LoginUrl = o.LoginUrl ∧
      r.opts.RedeemUrl = o.RedeemUrl ∧ r.opts.ProfileUrl = o.ProfileUrl ∧
      r.opts.Scope = o.Scope) ∧
    r.opts = { o with
      redirectUrl := r.opts.redirectUrl
      proxyUrls := r.opts.proxyUrls
      CompiledRegex := r.opts.CompiledRegex } ∧
    r.opts.redirectUrl = redirectEntry lib o.RedirectUrl ∧
    r.opts.proxyUrls = o.proxyUrls ++ o.Upstreams.map (upstreamEntry lib) ∧
    r.opts.CompiledRegex = o.CompiledRegex ++ o.SkipAuthRegex.map (regexEntry lib) ∧
    r.opts.Provider = o.Provider ∧ r.opts.loginUrl = o.loginUrl ∧
    r.opts.redeemUrl = o.redeemUrl ∧ r.opts.profileUrl = o.profileUrl := by
  obtain ⟨_, rfl⟩ := Validate_ok_inv lib o r hv
  simp [validatedOpts]

/-- C10, amended, on the defaults of `NewOptions` with upstreams, redirect URL and patterns
set. -/
theorem Validate_keeps_settings_witness :
    Validate exampleLib cfgMixed = .ok ⟨validatedOpts exampleLib cfgMixed,
        allMsgs exampleLib cfgMixed, reportOf (allMsgs exampleLib cfgMixed)⟩ ∧
      (validatedOpts exampleLib cfgMixed).Scope = "profile email" ∧
      (validatedOpts exampleLib cfgMixed).Upstreams = ["http://foo", "http://foo/bar"] ∧
      (validatedOpts exampleLib cfgMixed).proxyUrls =
        cfgMixed.proxyUrls ++ cfgMixed.Upstreams.map (upstreamEntry exampleLib) :=
  ⟨by decide,
    (Validate_keeps_settings exampleLib cfgMixed ⟨validatedOpts exampleLib cfgMixed,
      allMsgs exampleLib cfgMixed, reportOf (allMsgs exampleLib cfgMixed)⟩ (by decide)).1.2.2.2.2.2.2.2.2.2.2.2.2.2.2.2.2.2.2.2,
    (Validate_keeps_settings exampleLib cfgMixed ⟨validatedOpts exampleLib cfgMixed,
      allMsgs exampleLib cfgMixed, reportOf (allMsgs exampleLib cfgMixed)⟩ (by decide)).1.2.2.2.2.2.2.2.2.2.2.2.2.2.2.1,
    (Validate_keeps_settings exampleLib cfgMixed ⟨validatedOpts exampleLib cfgMixed,
      allMsgs exampleLib cfgMixed, reportOf (allMsgs exampleLib cfgMixed)⟩ (by decide)).2.2.2.1⟩

/-- C11: `NewProvider` dispatches on the provider discriminator: for the value `myusa` it
returns the MyUSA provider built by `NewMyUsaProvider`, and for every other value, the empty
string included, the Google provider built by `NewGoogleProvider`. -/
theorem NewProvider_dispatch (opts : Options) :
    (opts.Provider = "myusa" →
      (NewProvider opts).1 = Provider.myusa (NewMyUsaProvider opts).1 ∧
        (NewProvider opts).2 = (NewMyUsaProvider opts).2) ∧
    (opts.Provider ≠ "myusa" →
      (NewProvider opts).1 = Provider.google (NewGoogleProvider opts).1 ∧
        (NewProvider opts).2 = (NewGoogleProvider opts).2) ∧
    (opts.Provider = "" → (NewProvider opts).1 = Provider.google (NewGoogleProvider opts).1) := by
  refine ⟨?_, ?_, ?_⟩
  · intro h
    simp [NewProvider, h]
  · intro h
    simp [NewProvider, h]
  · intro h
    have hne : opts.Provider ≠ "myusa" := by rw [h]; decide
    simp [NewProvider, hne]

/-- C11 on three configurations: provider `myusa`, provider unset and provider `github`. -/
theorem NewProvider_dispatch_witness :
    (NewProvider cfgMyUsaBare).1 = Provider.myusa (NewMyUsaProvider cfgMyUsaBare).1 ∧
      (NewProvider cfgEmpty).1 = Provider.google (NewGoogleProvider cfgEmpty).1 ∧
      (NewProvider { cfgEmpty with Provider := "github" }).1 =
        Provider.google (NewGoogleProvider { cfgEmpty with Provider := "github" }).1 :=
  ⟨((NewProvider_dispatch cfgMyUsaBare).1 rfl).1,
    (NewProvider_dispatch cfgEmpty).2.2 rfl,
    ((NewProvider_dispatch { cfgEmpty with Provider := "github" }).2.1 (by decide)).1⟩

/-- C13: for every configuration with an unset (empty) provider discriminator and empty
login-URL, redeem-URL and scope overrides, `NewProvider` yields the Google provider whose
`LoginUrl()` is `https://accounts.google.com/o/oauth2/auth`, whose `RedeemUrl()` is
`https://accounts.google.com/o/oauth2/token` and whose `Scope()` is `profile email`. -/
theorem NewProvider_google_defaults (opts : Options) (hp : opts.Provider = "")
    (hl : opts.LoginUrl = "") (hr : opts.RedeemUrl = "") (hs : opts.Scope = "") :
    (∃ g, (NewProvider opts).1 = Provider.google g) ∧
      (NewProvider opts).1.LoginUrl = .ok "https://accounts.google.com/o/oauth2/auth" ∧
      (NewProvider opts).1.RedeemUrl = .ok "https://accounts.google.com/o/oauth2/token" ∧
      (NewProvider opts).1.Scope = "profile email" := by
  have hne : opts.Provider ≠ "myusa" := by rw [hp]; decide
  rw [NewProvider_eq, if_neg hne]
  refine ⟨⟨_, rfl⟩, ?_, ?_, ?_⟩
  · simp only [Provider.LoginUrl, Provider.data, ProviderData.LoginUrl, NewProviderData,
      googleFilled, hl, if_true, urlPtrString]
    decide
  · simp only [Provider.RedeemUrl, Provider.data, ProviderData.RedeemUrl, NewProviderData,
      googleFilled, hr, if_true, urlPtrString]
    decide
  · simp [Provider.Scope, Provider.data, ProviderData.Scope, NewProviderData, googleFilled, hs]

/-- C13 on the zero-value configuration (scenario D). -/
theorem NewProvider_google_defaults_witness :
    cfgEmpty.Provider = "" ∧ cfgEmpty.LoginUrl = "" ∧ cfgEmpty.RedeemUrl = "" ∧
      cfgEmpty.Scope = "" ∧
      ((∃ g, (NewProvider cfgEmpty).1 = Provider.google g) ∧
        (NewProvider cfgEmpty).1.LoginUrl = .ok "https://accounts.google.com/o/oauth2/auth" ∧
        (NewProvider cfgEmpty).1.RedeemUrl = .ok "https://accounts.google.com/o/oauth2/token" ∧
        (NewProvider cfgEmpty).1.Scope = "profile email") :=
  ⟨rfl, rfl, rfl, rfl, NewProvider_google_defaults cfgEmpty rfl rfl rfl rfl⟩

/-- C14: for every configuration with provider `myusa` and empty scope, login-URL, redeem-URL
and profile-URL overrides, `NewProvider` yields the MyUSA provider with scope `profile.email`,
login URL `https://alpha.my.usa.gov/oauth/authorize`, redeem URL
`https://alpha.my.usa.gov/oauth/token` and profile URL
`https://alpha.my.usa.gov/api/v1/profile`. The constructor of the package `providers` fills the
same four defaults into a `ProviderData` whose scope is empty and whose three URLs render as the
empty string. -/
theorem NewProvider_myusa_defaults (opts : Options) (hp : opts.Provider = "myusa")
    (hs : opts.Scope = "") (hl : opts.LoginUrl = "") (hr : opts.RedeemUrl = "")
    (hpr : opts.ProfileUrl = "") :
    ((NewProvider opts).1 = Provider.myusa { toProviderData :=
        { loginUrl := some { Scheme := "https", Host := "alpha.my.usa.gov", Path := "/oauth/authorize" },
          redeemUrl := some { Scheme := "https", Host := "alpha.my.usa.gov", Path := "/oauth/token" },
          profileUrl := some { Scheme := "https", Host := "alpha.my.usa.gov", Path := "/api/v1/profile" },
          scope := "profile.email" } } ∧
      (NewProvider opts).1.Scope = "profile.email" ∧
      (NewProvider opts).1.LoginUrl = .ok "https://alpha.my.usa.gov/oauth/authorize" ∧
      (NewProvider opts).1.RedeemUrl = .ok "https://alpha.my.usa.gov/oauth/token" ∧
      urlPtrString (NewProvider opts).1.data.profileUrl =
        .ok "https://alpha.my.usa.gov/api/v1/profile") ∧
    (∀ (p : providers.ProviderData) (l r pr : URL), p.LoginUrl = some l → p.RedeemUrl = some r →
      p.ProfileUrl = some pr → l.toString = "" → r.toString = "" → pr.toString = "" →
      p.Scope = "" →
      providers.NewMyUsaProvider p = .ok { toProviderData :=
        { LoginUrl := some { Scheme := "https", Host := "alpha.my.usa.gov", Path := "/oauth/authorize" },
          RedeemUrl := some { Scheme := "https", Host := "alpha.my.usa.gov", Path := "/oauth/token" },
          ProfileUrl := some { Scheme := "https", Host := "alpha.my.usa.gov", Path := "/api/v1/profile" },
          Scope := "profile.email" } }) := by
  constructor
  · have h1 : (NewProvider opts).1 = Provider.myusa { toProviderData :=
        { loginUrl := some { Scheme := "https", Host := "alpha.my.usa.gov", Path := "/oauth/authorize" },
          redeemUrl := some { Scheme := "https", Host := "alpha.my.usa.gov", Path := "/oauth/token" },
          profileUrl := some { Scheme := "https", Host := "alpha.my.usa.gov", Path := "/api/v1/profile" },
          scope := "profile.email" } } := by
      rw [NewProvider_eq, if_pos hp]
      simp [NewProviderData, myUsaFilled, hs, hl, hr, hpr]
    rw [h1]
    exact ⟨rfl, rfl, by decide, by decide, by decide⟩
  · intro p l r pr h1 h2 h3 h4 h5 h6 h7
    simp [providers.NewMyUsaProvider, urlPtrString, h1, h2, h3, h4, h5, h6, h7, myUsaHost]

/-- C14 on a configuration with only the provider set (scenario E), and on a `ProviderData` of
the package `providers` whose URLs are the parse of the empty string. -/
theorem NewProvider_myusa_defaults_witness :
    (NewProvider cfgMyUsaBare).1.Scope = "profile.email" ∧
      (NewProvider cfgMyUsaBare).1.LoginUrl = .ok "https://alpha.my.usa.gov/oauth/authorize" ∧
      urlPtrString (NewProvider cfgMyUsaBare).1.data.profileUrl =
        .ok "https://alpha.my.usa.gov/api/v1/profile" ∧
      providers.NewMyUsaProvider dataUnset = .ok { toProviderData :=
        { LoginUrl := some { Scheme := "https", Host := "alpha.my.usa.gov", Path := "/oauth/authorize" },
          RedeemUrl := some { Scheme := "https", Host := "alpha.my.usa.gov", Path := "/oauth/token" },
          ProfileUrl := some { Scheme := "https", Host := "alpha.my.usa.gov", Path := "/api/v1/profile" },
          Scope := "profile.email" } } :=
  ⟨(NewProvider_myusa_defaults cfgMyUsaBare rfl rfl rfl rfl rfl).1.2.1,
    (NewProvider_myusa_defaults cfgMyUsaBare rfl rfl rfl rfl rfl).1.2.2.1,
    (NewProvider_myusa_defaults cfgMyUsaBare rfl rfl rfl rfl rfl).1.2.2.2.2,
    (NewProvider_myusa_defaults cfgMyUsaBare rfl rfl rfl rfl rfl).2 dataUnset {} {} {}
      rfl rfl rfl (by decide) (by decide) (by decide) rfl⟩

/-- C15: an `id_token` with fewer than two segments is not reported as an error. For every
exchange result whose `id_token` is a string that splits on `.` into fewer than two segments,
the Google provider's `GetEmailAddress` faults on the out-of-range index `jwt[1]` instead of
returning an error and an empty email. -/
theorem Google_GetEmailAddress_single_segment (codec : Codec) (s : GoogleProvider)
    (auth_response : Json) (access_token idToken : String)
    (hid : (auth_response.Get "id_token").StringValue = .ok idToken)
    (hseg : (stringsSplit idToken '.').length < 2) :
    s.GetEmailAddress codec auth_response access_token = .panic ∧
      ∀ email err, s.GetEmailAddress codec auth_response access_token ≠ .ok (email, err) := by
  have hp : s.GetEmailAddress codec auth_response access_token = .panic := by
    unfold GoogleProvider.GetEmailAddress
    rw [hid]
    have hnone : (stringsSplit idToken '.')[1]? = none :=
      List.getElem?_eq_none (by omega)
    simp only [hnone]
  refine ⟨hp, ?_⟩
  intro email err h
  rw [hp] at h
  cases h

/-- C15 on an `id_token` without any `.`: the call faults. -/
theorem Google_GetEmailAddress_single_segment_witness :
    ((authWithToken "eyJhbGciOiJSUzI1NiJ9").Get "id_token").StringValue =
        .ok "eyJhbGciOiJSUzI1NiJ9" ∧
      (stringsSplit "eyJhbGciOiJSUzI1NiJ9" '.').length < 2 ∧
      (googleDefault.GetEmailAddress exampleCodec (authWithToken "eyJhbGciOiJSUzI1NiJ9") "ya29"
          = .panic ∧
        ∀ email err, googleDefault.GetEmailAddress exampleCodec
          (authWithToken "eyJhbGciOiJSUzI1NiJ9") "ya29" ≠ .ok (email, err)) :=
  ⟨rfl, by decide,
    Google_GetEmailAddress_single_segment exampleCodec googleDefault
      (authWithToken "eyJhbGciOiJSUzI1NiJ9") "ya29" "eyJhbGciOiJSUzI1NiJ9" rfl (by decide)⟩

/-- C16: for every email string `e`, every header segment and every signature, the Google
provider's `GetEmailAddress`, given an exchange result whose `id_token` is
`header.payload.sig` where the payload is base64url text, with its `=` padding or without it,
that decodes to a JSON document whose `email` member is the string `e`, returns `e` with no
error, whatever the access-token argument. `core` is the payload without padding and `k` the
number of `=` that pad it to a multiple of four characters. -/
theorem Google_GetEmailAddress_returns_email (codec : Codec) (s : GoogleProvider)
    (auth_response : Json) (access_token header core sig e : String) (k : Nat) (padded : Bool)
    (bytes : List UInt8) (data : Json) (hk : k < 4) (hlen : (core.length + k) % 4 = 0)
    (hh : '.' ∉ header.data) (hc : '.' ∉ core.data)
    (hid : (auth_response.Get "id_token").StringValue =
      .ok (header ++ "." ++
        (if padded then core ++ String.mk (List.replicate k '=') else core) ++ "." ++ sig))
    (hdec : codec.base64UrlDecode (core ++ String.mk (List.replicate k '=')) = .ok bytes)
    (hjson : codec.NewJson bytes = .ok data)
    (hemail : (data.Get "email").StringValue = .ok e) :
    s.GetEmailAddress codec auth_response access_token = .ok (e, none) := by
  have hpad : '.' ∉ (core ++ String.mk (List.replicate k '=')).data := by
    simp only [String.data_append, List.mem_append, not_or]
    refine ⟨hc, ?_⟩
    intro hm
    have := List.eq_of_mem_replicate hm
    exact absurd this (by decide)
  have hseg : jwtDecodeSegment codec
      (if padded then core ++ String.mk (List.replicate k '=') else core) = .ok bytes := by
    cases padded with
    | true => simp only [if_true]; rw [jwtDecodeSegment_padded codec core k hlen, hdec]
    | false =>
      simp only [Bool.false_eq_true, if_false]
      rw [jwtDecodeSegment_unpadded codec core k hk hlen, hdec]
  have hsplit : (stringsSplit (header ++ "." ++
      (if padded then core ++ String.mk (List.replicate k '=') else core) ++ "." ++ sig) '.')[1]?
      = some (if padded then core ++ String.mk (List.replicate k '=') else core) := by
    apply stringsSplit_second _ _ _ hh
    cases padded with
    | true => simpa using hpad
    | false => simpa using hc
  unfold GoogleProvider.GetEmailAddress
  rw [hid]
  simp only [hsplit, hseg, hjson, hemail]

/-- C16 on the token of the spec, `header.base64url({"email":"u@example.com"}).sig`, once
with the padding omitted and once with it, and with two different access tokens. -/
theorem Google_GetEmailAddress_returns_email_witness :
    ("eyJlbWFpbCI6InVAZXhhbXBsZS5jb20ifQ".length + 2) % 4 = 0 ∧
      '.' ∉ "eyJhbGciOiJSUzI1NiJ9".data ∧ '.' ∉ "eyJlbWFpbCI6InVAZXhhbXBsZS5jb20ifQ".data ∧
      googleDefault.GetEmailAddress exampleCodec
        (authWithToken "eyJhbGciOiJSUzI1NiJ9.eyJlbWFpbCI6InVAZXhhbXBsZS5jb20ifQ.c2ln") "ya29"
        = .ok ("u@example.com", none) ∧
      googleDefault.GetEmailAddress exampleCodec
        (authWithToken "eyJhbGciOiJSUzI1NiJ9.eyJlbWFpbCI6InVAZXhhbXBsZS5jb20ifQ==.c2ln") ""
        = .ok ("u@example.com", none) :=
  ⟨by decide, by decide, by decide,
    Google_GetEmailAddress_returns_email exampleCodec googleDefault _ "ya29"
      "eyJhbGciOiJSUzI1NiJ9" "eyJlbWFpbCI6InVAZXhhbXBsZS5jb20ifQ" "c2ln" "u@example.com" 2 false
      _ (Json.object [("email", Json.string "u@example.com")])
      (by decide) (by decide) (by decide) (by decide) rfl rfl rfl rfl,
    Google_GetEmailAddress_returns_email exampleCodec googleDefault _ ""
      "eyJhbGciOiJSUzI1NiJ9" "eyJlbWFpbCI6InVAZXhhbXBsZS5jb20ifQ" "c2ln" "u@example.com" 2 true
      _ (Json.object [("email", Json.string "u@example.com")])
      (by decide) (by decide) (by decide) (by decide) rfl rfl rfl rfl⟩

/-- C18: for every configuration on which `Validate` completes, it returns no error if and only
if it collected no message; otherwise it returns one error whose text is
`Invalid configuration:`, a line break and two blanks, followed by all collected messages
separated by a line break and two blanks (the library's `String.intercalate` of the messages).
The messages are in detection order: missing upstream, cookie-secret, client-id, client-secret,
then the redirect URL, then the patterns in list order (a completed call holds no upstream
message, a failing upstream being a fault). -/
theorem Validate_report (lib : Lib) (o : Options) (r : ValidateResult)
    (hv : Validate lib o = .ok r) :
    (r.err = none ↔ r.msgs.length = 0) ∧
      (r.msgs.length ≠ 0 →
        r.err = some ("Invalid configuration:\n  " ++ String.intercalate "\n  " r.msgs)) ∧
      r.msgs =
        ((if o.Upstreams.length < 1 then ["missing setting: upstream"] else []) ++
          (if o.CookieSecret = "" then ["missing setting: cookie-secret"] else []) ++
          (if o.ClientID = "" then ["missing setting: client-id"] else []) ++
          (if o.ClientSecret = "" then ["missing setting: client-secret"] else [])) ++
        redirectMsgs lib o.RedirectUrl ++ regexMsgs lib o.SkipAuthRegex := by
  obtain ⟨_, rfl⟩ := Validate_ok_inv lib o r hv
  refine ⟨?_, ?_, rfl⟩
  · simp only [reportOf]
    split_ifs with h
    · simp [h]
    · simp only [ne_eq, Decidable.not_not] at h
      simp [h]
  · intro h
    simp only [reportOf, h, ne_eq, not_false_eq_true, if_true, stringsJoin_eq_intercalate]

/-- C18 on a configuration with four violations, whose report is written out, and on one with
none. -/
theorem Validate_report_witness :
    (Validate exampleLib cfgMixed = .ok ⟨validatedOpts exampleLib cfgMixed,
        allMsgs exampleLib cfgMixed, reportOf (allMsgs exampleLib cfgMixed)⟩ ∧
      reportOf (allMsgs exampleLib cfgMixed) = some
        "Invalid configuration:\n  missing setting: client-id\n  missing setting: client-secret\n  error parsing redirect-url=\":foo\" parse :foo: missing protocol scheme\n  error compiling regex=\"(bad\" error parsing regexp: missing closing ): `(bad`") ∧
    (Validate exampleLib cfgFoo = .ok ⟨validatedOpts exampleLib cfgFoo,
        allMsgs exampleLib cfgFoo, reportOf (allMsgs exampleLib cfgFoo)⟩ ∧
      (allMsgs exampleLib cfgFoo).length = 0 ∧
      reportOf (allMsgs exampleLib cfgFoo) = none) :=
  ⟨⟨by decide,
      ((Validate_report exampleLib cfgMixed ⟨validatedOpts exampleLib cfgMixed,
        allMsgs exampleLib cfgMixed, reportOf (allMsgs exampleLib cfgMixed)⟩ (by decide)).2.1
          (by decide)).trans (by set_option maxRecDepth 20000 in decide)⟩,
    ⟨by decide, by decide,
      (Validate_report exampleLib cfgFoo ⟨validatedOpts exampleLib cfgFoo,
        allMsgs exampleLib cfgFoo, reportOf (allMsgs exampleLib cfgFoo)⟩ (by decide)).1.mpr
          (by decide)⟩⟩

/-- C19: for every freshly constructed configuration on which `Validate` completes, the
compiled-regex sequence after the call has exactly as many entries as the skip-auth pattern
list and is index-aligned with it: entry `i` is the compiled matcher of pattern `i` when the
pattern compiles, and a nil placeholder when it does not. -/
theorem Validate_compiled_aligned (lib : Lib) (o : Options) (r : ValidateResult)
    (hf : Fresh o) (hv : Validate lib o = .ok r) :
    r.opts.CompiledRegex.length = o.SkipAuthRegex.length ∧
      ∀ (i : Nat) (p : String), o.SkipAuthRegex[i]? = some p →
        (∀ re, lib.regexpCompile p = .ok re → r.opts.CompiledRegex[i]? = some (some re)) ∧
        (∀ err, lib.regexpCompile p = .error err → r.opts.CompiledRegex[i]? = some none) := by
  obtain ⟨_, _, hc⟩ := hf
  obtain ⟨_, rfl⟩ := Validate_ok_inv lib o r hv
  refine ⟨by simp [validatedOpts, hc], ?_⟩
  intro i p hi
  constructor
  · intro re hre
    simp only [validatedOpts, hc, List.nil_append]
    rw [List.getElem?_map, hi]
    simp [regexEntry, hre]
  · intro err herr
    simp only [validatedOpts, hc, List.nil_append]
    rw [List.getElem?_map, hi]
    simp [regexEntry, herr]

/-- C19 on patterns `^/health$` (compiles) and `(bad` (does not): a matcher, then nil. -/
theorem Validate_compiled_aligned_witness :
    Fresh cfgMixed ∧
      Validate exampleLib cfgMixed = .ok ⟨validatedOpts exampleLib cfgMixed,
        allMsgs exampleLib cfgMixed, reportOf (allMsgs exampleLib cfgMixed)⟩ ∧
      (validatedOpts exampleLib cfgMixed).CompiledRegex.length = cfgMixed.SkipAuthRegex.length ∧
      (validatedOpts exampleLib cfgMixed).CompiledRegex[0]? = some (some ⟨"^/health$"⟩) ∧
      (validatedOpts exampleLib cfgMixed).CompiledRegex[1]? = some none :=
  ⟨⟨rfl, rfl, rfl⟩, by decide,
    (Validate_compiled_aligned exampleLib cfgMixed ⟨validatedOpts exampleLib cfgMixed,
      allMsgs exampleLib cfgMixed, reportOf (allMsgs exampleLib cfgMixed)⟩ ⟨rfl, rfl, rfl⟩
      (by decide)).1,
    ((Validate_compiled_aligned exampleLib cfgMixed ⟨validatedOpts exampleLib cfgMixed,
      allMsgs exampleLib cfgMixed, reportOf (allMsgs exampleLib cfgMixed)⟩ ⟨rfl, rfl, rfl⟩
      (by decide)).2 0 "^/health$" (by decide)).1 ⟨"^/health$"⟩ rfl,
    ((Validate_compiled_aligned exampleLib cfgMixed ⟨validatedOpts exampleLib cfgMixed,
      allMsgs exampleLib cfgMixed, reportOf (allMsgs exampleLib cfgMixed)⟩ ⟨rfl, rfl, rfl⟩
      (by decide)).2 1 "(bad" (by decide)).2
        "error parsing regexp: missing closing ): `(bad`" rfl⟩

/-- C20: the configuration returned by `NewOptions` has non-empty `LoginUrl`, `RedeemUrl` and
`Scope`, equal to the Google defaults. Consequently, for every configuration that has these
three settings and the empty `ProfileUrl` of `NewOptions()` and the provider set to `myusa`, the
MyUSA provider gets none of the MyUSA login URL, redeem URL and scope defaults: its parsed login
and redeem URLs are the ones the configuration held before the call, its `Scope()` is
`profile email` and not `profile.email`, and only the profile URL default is filled. -/
theorem NewOptions_blocks_myusa_defaults (opts : Options) (hp : opts.Provider = "myusa")
    (hl : opts.LoginUrl = NewOptions.LoginUrl) (hr : opts.RedeemUrl = NewOptions.RedeemUrl)
    (hs : opts.Scope = NewOptions.Scope) (hpr : opts.ProfileUrl = NewOptions.ProfileUrl) :
    (NewOptions.LoginUrl = "https://accounts.google.com/o/oauth2/auth" ∧
      NewOptions.RedeemUrl = "https://accounts.google.com/o/oauth2/token" ∧
      NewOptions.Scope = "profile email" ∧
      NewOptions.LoginUrl ≠ "" ∧ NewOptions.RedeemUrl ≠ "" ∧ NewOptions.Scope ≠ "") ∧
    (NewProvider opts).1 = Provider.myusa { toProviderData :=
      { loginUrl := opts.loginUrl, redeemUrl := opts.redeemUrl,
        profileUrl := some myUsaProfileUrl, scope := "profile email" } } ∧
    (NewProvider opts).1.Scope = "profile email" ∧
    (NewProvider opts).1.Scope ≠ "profile.email" ∧
    (NewProvider opts).1.LoginUrl = urlPtrString opts.loginUrl ∧
    (NewProvider opts).1.RedeemUrl = urlPtrString opts.redeemUrl ∧
    urlPtrString (NewProvider opts).1.data.profileUrl =
      .ok "https://alpha.my.usa.gov/api/v1/profile" := by
  have h1 : (NewProvider opts).1 = Provider.myusa { toProviderData :=
      { loginUrl := opts.loginUrl, redeemUrl := opts.redeemUrl,
        profileUrl := some myUsaProfileUrl, scope := "profile email" } } := by
    have hl2 : opts.LoginUrl ≠ "" := by rw [hl]; decide
    have hr2 : opts.RedeemUrl ≠ "" := by rw [hr]; decide
    have hs2 : opts.Scope ≠ "" := by rw [hs]; decide
    have hs3 : opts.Scope = "profile email" := by rw [hs]; rfl
    have hpr2 : opts.ProfileUrl = "" := by rw [hpr]; rfl
    rw [NewProvider_eq, if_pos hp]
    simp [NewProviderData, myUsaFilled, hl2, hr2, hpr2, myUsaProfileUrl, hs3]
  refine ⟨⟨rfl, rfl, rfl, by decide, by decide, by decide⟩, h1, ?_, ?_, ?_, ?_, ?_⟩
  · rw [h1]; rfl
  · rw [h1]
    show ("profile email" : String) ≠ "profile.email"
    decide
  · rw [h1]; rfl
  · rw [h1]; rfl
  · rw [h1]
    show urlPtrString (some myUsaProfileUrl) = .ok "https://alpha.my.usa.gov/api/v1/profile"
    decide

/-- C20 on `NewOptions()` with only the provider set to `myusa`: the parsed login and redeem
URLs stay unset, the scope stays `profile email`. -/
theorem NewOptions_blocks_myusa_defaults_witness :
    cfgMyUsaDefaults = { NewOptions with Provider := "myusa" } ∧
      (NewProvider cfgMyUsaDefaults).1 = Provider.myusa { toProviderData :=
        { loginUrl := none, redeemUrl := none,
          profileUrl := some myUsaProfileUrl, scope := "profile email" } } ∧
      (NewProvider cfgMyUsaDefaults).1.Scope = "profile email" ∧
      (NewProvider cfgMyUsaDefaults).1.Scope ≠ "profile.email" ∧
      urlPtrString (NewProvider cfgMyUsaDefaults).1.data.profileUrl =
        .ok "https://alpha.my.usa.gov/api/v1/profile" :=
  ⟨rfl,
    (NewOptions_blocks_myusa_defaults cfgMyUsaDefaults rfl rfl rfl rfl rfl).2.1,
    (NewOptions_blocks_myusa_defaults cfgMyUsaDefaults rfl rfl rfl rfl rfl).2.2.1,
    (NewOptions_blocks_myusa_defaults cfgMyUsaDefaults rfl rfl rfl rfl rfl).2.2.2.1,
    (NewOptions_blocks_myusa_defaults cfgMyUsaDefaults rfl rfl rfl rfl rfl).2.2.2.2.2.2⟩

end Oauth2Proxy
